import Mathlib

set_option maxRecDepth 4000

/-!
# Verification of the Fast Forth VM (`forth_fast.h` / `forth_fast.c`)

A shallow embedding of the Forth virtual machine and its incremental
interpreter/compiler, translated from the C sources:

* `src/forth_fast.h` — the VM state (`forth_t`), the bytecode executor
  (`execute`), the tokenizer (`next_token`), the token interpreter
  (`interpret_token`), the line interpreter (`interpret_line`), the binary
  persistence handlers (SAVEB/LOADB), and the initializer (`init_forth`);
* `src/forth_fast.c` — the command-line front end (not embedded; out of
  scope for the claims below).

Modelling conventions:

* Machine cells (`cell_t`, C `int32_t`) are `Int` normalised through
  `wrap32` wherever the C performs 32-bit arithmetic; addresses (`addr_t`,
  C `uint16_t`) are `Nat` reduced mod 65536 where the C wraps.
* The data stack, return stack and compile-time control stack are lists
  with the head as top-of-stack; the C cursors `sp`, `rp`, `csp` are the
  list lengths.  The C return stack and control stack are fixed arrays of
  64 and 32 entries with *unchecked* pushes in some handlers; pushing past
  the array end is an out-of-bounds write (undefined behaviour) in C, and
  is modelled here by letting the list grow, which makes the overflow
  observable as `length > capacity`.
* The dictionary is a list of 4096 bytes (`FF_DICT_SIZE`).  C reads of
  `dict[pc]` with `pc ≥ 4096` (possible because `addr_t` has range 65536)
  are out-of-bounds reads in C and are modelled as yielding 0.
* Standard output is modelled as a byte list `output` appended to by the
  printing opcodes; standard input as a byte list `input` consumed by KEY.
  Text written to `stderr` (error messages) is not modelled.
* Files are modelled by two association lists in the state: `tfs` maps a
  name to the lines of a text file (for LOAD) and `bfs` maps a name to a
  binary image (for SAVEB/LOADB).  The textual SAVE handler's file
  contents (the decompiler's output) and the SEE listing are not
  reproduced, since they only produce text and no claim observes them;
  their state effects (none) and success/failure behaviour are modelled.
* `execute`'s dispatch loop and `interpret_line`'s token loop are modelled
  with explicit fuel; the C loops terminate on every input a claim
  mentions, and each claim is settled at fuel large enough that the fuel
  bound is never hit.
-/

namespace ForthFast

/-- Configuration constant `FF_STACK_DEPTH`. -/
def FF_STACK_DEPTH : Nat := 128
/-- Configuration constant `FF_RET_DEPTH`. -/
def FF_RET_DEPTH : Nat := 64
/-- Configuration constant `FF_DICT_SIZE`. -/
def FF_DICT_SIZE : Nat := 4096
/-- Configuration constant `FF_MAX_WORDS`. -/
def FF_MAX_WORDS : Nat := 128
/-- Configuration constant `FF_NAME_MAX`. -/
def FF_NAME_MAX : Nat := 15

/-- Normalise an integer into the `int32_t` range `[-2^31, 2^31)`
(two's-complement wrap-around). -/
def wrap32 (z : Int) : Int := (z + 2 ^ 31) % 2 ^ 32 - 2 ^ 31

/-- The unsigned 32-bit pattern of a cell (two's complement). -/
def toNat32 (z : Int) : Nat := (z % 2 ^ 32).toNat

/-- Cast a cell to `addr_t` (C `(addr_t)c`, i.e. mod 2^16). -/
def toAddr (z : Int) : Nat := (z % 2 ^ 16).toNat

/-- Byte `i` of the little-endian encoding of a cell
(C `(c >> (i * 8)) & 0xFF`). -/
def cellByte (z : Int) (i : Nat) : Nat := toNat32 z >>> (8 * i) % 256

/-- Opcode values, exactly the C `opcode_t` enumeration. -/
def OP_EXIT : Nat := 0
def OP_LIT : Nat := 1
def OP_CALL : Nat := 2
def OP_ADD : Nat := 3
def OP_SUB : Nat := 4
def OP_MUL : Nat := 5
def OP_DIV : Nat := 6
def OP_DUP : Nat := 7
def OP_DROP : Nat := 8
def OP_SWAP : Nat := 9
def OP_OVER : Nat := 10
def OP_DOT : Nat := 11
def OP_AND : Nat := 12
def OP_OR : Nat := 13
def OP_XOR : Nat := 14
def OP_NOT : Nat := 15
def OP_LT : Nat := 16
def OP_GT : Nat := 17
def OP_EQ : Nat := 18
def OP_LE : Nat := 19
def OP_GE : Nat := 20
def OP_NE : Nat := 21
def OP_BRANCH : Nat := 22
def OP_BRANCH_IF_ZERO : Nat := 23
def OP_DO : Nat := 24
def OP_LOOP : Nat := 25
def OP_I : Nat := 26
def OP_LOAD : Nat := 27
def OP_STORE : Nat := 28
def OP_LOAD_BYTE : Nat := 29
def OP_STORE_BYTE : Nat := 30
def OP_ROT : Nat := 31
def OP_2DUP : Nat := 32
def OP_2DROP : Nat := 33
def OP_NIP : Nat := 34
def OP_TUCK : Nat := 35
def OP_TO_R : Nat := 36
def OP_R_FROM : Nat := 37
def OP_R_FETCH : Nat := 38
def OP_MOD : Nat := 39
def OP_NEGATE : Nat := 40
def OP_ABS : Nat := 41
def OP_MIN : Nat := 42
def OP_MAX_OP : Nat := 43
def OP_DIVMOD : Nat := 44
def OP_1PLUS : Nat := 45
def OP_1MINUS : Nat := 46
def OP_ZERO_EQ : Nat := 47
def OP_ZERO_LT : Nat := 48
def OP_ZERO_NE : Nat := 49
def OP_QDUP : Nat := 50
def OP_PLUSSTORE : Nat := 51
def OP_ALLOT : Nat := 52
def OP_EMIT : Nat := 53
def OP_KEY : Nat := 54
def OP_CR : Nat := 55
def OP_TYPE : Nat := 56
def OP_HERE : Nat := 57
def OP_DOT_S : Nat := 58
def OP_DEPTH : Nat := 59
def OP_CLEAR : Nat := 60
def OP_WORDS : Nat := 61
def OP_SEE : Nat := 62

/-- A word-table entry (`word_t`): name (≤ 15 chars, upper-cased by the
tokenizer), body address, and the reserved flags byte. -/
structure Word where
  name : String
  addr : Nat
  flags : Nat
deriving DecidableEq

/-- The binary image written by SAVEB and read by LOADB (§4.5 of the spec):
magic, version, HERE, the first HERE dictionary bytes, the live word table
and the builtin boundary.  The C writes these fields with `fwrite` and
reads them back with `fread` of the same sizes, so the byte stream is
modelled by the record itself. -/
structure ImageFile where
  magic : Nat
  version : Nat
  fhere : Nat
  dictBytes : List Nat
  fwords : List Word
  fbuiltin : Nat
deriving DecidableEq

/-- The VM state (`forth_t`).  List heads are stack tops; `sp`, `rp`,
`csp` and `word_count` are the list lengths.  The C `token` scratch buffer
is not part of the state: the modelled tokenizer returns tokens
functionally.  (Consequence, noted where relevant: the C LOAD handler
prints `vm->token` after the loaded file clobbered it; the model prints
the file name.  No claim observes that message.) -/
structure forth_t where
  ds : List Int
  rs : List Int
  dict : List Nat
  here : Nat
  words : List Word
  compiling : Bool
  cstack : List Nat
  builtin_count : Nat
  output : List Nat
  input : List Nat
  tfs : List (String × List (List Char))
  bfs : List (String × ImageFile)
deriving DecidableEq

/-- The macro `PUSH(vm, val)`: a push beyond `FF_STACK_DEPTH` is silently dropped. -/
def pushV (vm : forth_t) (v : Int) : forth_t :=
  if vm.ds.length < FF_STACK_DEPTH then { vm with ds := v :: vm.ds } else vm

/-- The macro `POP(vm)`: popping an empty data stack yields 0. -/
def popV (vm : forth_t) : Int × forth_t :=
  match vm.ds with
  | [] => (0, vm)
  | a :: t => (a, { vm with ds := t })

/-- Read `vm->dict[i]` (reads with `i ≥ FF_DICT_SIZE` are out-of-bounds in C;
modelled as 0). -/
def dictByte (vm : forth_t) (i : Nat) : Nat := vm.dict.getD i 0

/-- The C `emit_byte`: append a byte at HERE unless the dictionary is full. -/
def emit_byte (vm : forth_t) (b : Nat) : forth_t :=
  if vm.here ≥ FF_DICT_SIZE then vm
  else { vm with dict := vm.dict.set vm.here (b % 256), here := vm.here + 1 }

/-- The C `emit_cell`: four little-endian bytes of a cell. -/
def emit_cell (vm : forth_t) (c : Int) : forth_t :=
  emit_byte (emit_byte (emit_byte (emit_byte vm (cellByte c 0)) (cellByte c 1))
    (cellByte c 2)) (cellByte c 3)

/-- The C `emit_addr`: two little-endian bytes of an address. -/
def emit_addr (vm : forth_t) (a : Nat) : forth_t :=
  emit_byte (emit_byte vm (a % 256)) (a >>> 8 % 256)

/-- The C `patch_addr`: overwrite a 2-byte slot in place (no bounds check in C;
`List.set` out of range is a no-op, matching that no in-range byte
changes). -/
def patch_addr (vm : forth_t) (location target : Nat) : forth_t :=
  { vm with dict :=
      (vm.dict.set location (target % 256)).set (location + 1) (target >>> 8 % 256) }

/-- Read the little-endian cell at `pc` (C `read_cell`); the program
counter advances 4 bytes, wrapping at 2^16. -/
def read_cell (vm : forth_t) (pc : Nat) : Int × Nat :=
  let b0 := dictByte vm (pc % 2 ^ 16)
  let b1 := dictByte vm ((pc + 1) % 2 ^ 16)
  let b2 := dictByte vm ((pc + 2) % 2 ^ 16)
  let b3 := dictByte vm ((pc + 3) % 2 ^ 16)
  (wrap32 (b0 + 256 * b1 + 65536 * b2 + 16777216 * b3), (pc + 4) % 2 ^ 16)

/-- Read the little-endian address at `pc` (C `read_addr`). -/
def read_addr (vm : forth_t) (pc : Nat) : Nat × Nat :=
  (dictByte vm (pc % 2 ^ 16) + 256 * dictByte vm ((pc + 1) % 2 ^ 16),
    (pc + 2) % 2 ^ 16)

/-- The C `find_word`: scan the word table newest-to-oldest. -/
def find_word (vm : forth_t) (name : String) : Option Word :=
  go vm.words.reverse
where
  /-- Scan of the reversed (newest-first) table. -/
  go : List Word → Option Word
  | [] => none
  | w :: ws => if w.name = name then some w else go ws

/-- The C `add_word`: append an entry unless the table is full; the stored name
is truncated to `FF_NAME_MAX` characters (`strncpy`). -/
def add_word (vm : forth_t) (name : String) (addr : Nat) : forth_t :=
  if vm.words.length ≥ FF_MAX_WORDS then vm
  else { vm with words := vm.words ++ [⟨(name.toList.take FF_NAME_MAX).asString, addr, 0⟩] }

/-- Decimal rendering of a cell as `printf("%d ", …)` produces, as output
bytes (digits, optional minus sign, trailing space). -/
def dotBytes (z : Int) : List Nat := (toString z ++ " ").toList.map Char.toNat

/-- String to output bytes. -/
def strBytes (s : String) : List Nat := s.toList.map Char.toNat

/-- Append bytes to the modelled standard output. -/
def addOut (vm : forth_t) (bs : List Nat) : forth_t :=
  { vm with output := vm.output ++ bs }

/-- Read the cell stored little-endian at dictionary offset `a`
(the in-range case of OP_LOAD / the read half of OP_PLUSSTORE). -/
def cellAt (vm : forth_t) (a : Nat) : Int :=
  wrap32 (dictByte vm a + 256 * dictByte vm (a + 1) + 65536 * dictByte vm (a + 2) +
    16777216 * dictByte vm (a + 3))

/-- Write cell `v` little-endian at dictionary offset `a`
(the in-range case of OP_STORE / OP_PLUSSTORE). -/
def storeCell (vm : forth_t) (a : Nat) (v : Int) : forth_t :=
  { vm with dict := ((((vm.dict.set a (cellByte v 0)).set (a + 1) (cellByte v 1)).set
      (a + 2) (cellByte v 2)).set (a + 3) (cellByte v 3)) }

/-- OP_EXIT: return from word, or end the `execute` call when the return
stack is empty. -/
def exEXIT (vm : forth_t) (_pc : Nat) : forth_t × Option Nat :=
  match vm.rs with
  | [] => (vm, none)
  | r :: rest => ({ vm with rs := rest }, some (toAddr r))

/-- OP_LIT: push the inline cell. -/
def exLIT (vm : forth_t) (pc : Nat) : forth_t × Option Nat :=
  let rc := read_cell vm pc
  (pushV vm rc.1, some rc.2)

/-- OP_CALL: push the post-operand address onto the return stack (no
capacity check in C — an out-of-bounds write once `rp` reaches
`FF_RET_DEPTH`, see claim C5) and jump. -/
def exCALL (vm : forth_t) (pc : Nat) : forth_t × Option Nat :=
  let ra := read_addr vm pc
  ({ vm with rs := (ra.2 : Int) :: vm.rs }, some ra.1)

/-- OP_ADD -/
def exADD (vm : forth_t) (pc : Nat) : forth_t × Option Nat :=
  let p1 := popV vm
  let p2 := popV p1.2
  (pushV p2.2 (wrap32 (p2.1 + p1.1)), some pc)

/-- OP_SUB -/
def exSUB (vm : forth_t) (pc : Nat) : forth_t × Option Nat :=
  let p1 := popV vm
  let p2 := popV p1.2
  (pushV p2.2 (wrap32 (p2.1 - p1.1)), some pc)

/-- OP_MUL -/
def exMUL (vm : forth_t) (pc : Nat) : forth_t × Option Nat :=
  let p1 := popV vm
  let p2 := popV p1.2
  (pushV p2.2 (wrap32 (p2.1 * p1.1)), some pc)

/-- OP_DIV: division by zero yields 0 (truncating division, as C). -/
def exDIV (vm : forth_t) (pc : Nat) : forth_t × Option Nat :=
  let p1 := popV vm
  let p2 := popV p1.2
  (pushV p2.2 (if p1.1 ≠ 0 then wrap32 (p2.1.tdiv p1.1) else 0), some pc)

/-- OP_DUP (guarded: no-op on an empty stack). -/
def exDUP (vm : forth_t) (pc : Nat) : forth_t × Option Nat :=
  (match vm.ds with
   | a :: _ => pushV vm a
   | [] => vm, some pc)

/-- OP_DROP (guarded). -/
def exDROP (vm : forth_t) (pc : Nat) : forth_t × Option Nat :=
  (match vm.ds with
   | _ :: t => { vm with ds := t }
   | [] => vm, some pc)

/-- OP_SWAP (guarded in-place exchange). -/
def exSWAP (vm : forth_t) (pc : Nat) : forth_t × Option Nat :=
  (match vm.ds with
   | a :: b :: t => { vm with ds := b :: a :: t }
   | _ => vm, some pc)

/-- OP_OVER (guarded). -/
def exOVER (vm : forth_t) (pc : Nat) : forth_t × Option Nat :=
  (match vm.ds with
   | _ :: b :: _ => pushV vm b
   | _ => vm, some pc)

/-- OP_DOT: print and pop the top cell, `"%d "`; nothing on an empty
stack. -/
def exDOT (vm : forth_t) (pc : Nat) : forth_t × Option Nat :=
  (match vm.ds with
   | a :: t => addOut { vm with ds := t } (dotBytes a)
   | [] => vm, some pc)

/-- OP_AND (bitwise, on the 32-bit two's-complement patterns). -/
def exAND (vm : forth_t) (pc : Nat) : forth_t × Option Nat :=
  let p1 := popV vm
  let p2 := popV p1.2
  (pushV p2.2 (wrap32 (Nat.land (toNat32 p2.1) (toNat32 p1.1))), some pc)

/-- OP_OR -/
def exOR (vm : forth_t) (pc : Nat) : forth_t × Option Nat :=
  let p1 := popV vm
  let p2 := popV p1.2
  (pushV p2.2 (wrap32 (Nat.lor (toNat32 p2.1) (toNat32 p1.1))), some pc)

/-- OP_XOR -/
def exXOR (vm : forth_t) (pc : Nat) : forth_t × Option Nat :=
  let p1 := popV vm
  let p2 := popV p1.2
  (pushV p2.2 (wrap32 (Nat.xor (toNat32 p2.1) (toNat32 p1.1))), some pc)

/-- OP_NOT: bitwise complement of the top (`~a = -a-1`). -/
def exNOT (vm : forth_t) (pc : Nat) : forth_t × Option Nat :=
  let p1 := popV vm
  (pushV p1.2 (wrap32 (-p1.1 - 1)), some pc)

/-- OP_LT: −1 for true, 0 for false. -/
def exLT (vm : forth_t) (pc : Nat) : forth_t × Option Nat :=
  let p1 := popV vm
  let p2 := popV p1.2
  (pushV p2.2 (if p2.1 < p1.1 then -1 else 0), some pc)

/-- OP_GT -/
def exGT (vm : forth_t) (pc : Nat) : forth_t × Option Nat :=
  let p1 := popV vm
  let p2 := popV p1.2
  (pushV p2.2 (if p2.1 > p1.1 then -1 else 0), some pc)

/-- OP_EQ -/
def exEQ (vm : forth_t) (pc : Nat) : forth_t × Option Nat :=
  let p1 := popV vm
  let p2 := popV p1.2
  (pushV p2.2 (if p2.1 = p1.1 then -1 else 0), some pc)

/-- OP_LE -/
def exLE (vm : forth_t) (pc : Nat) : forth_t × Option Nat :=
  let p1 := popV vm
  let p2 := popV p1.2
  (pushV p2.2 (if p2.1 ≤ p1.1 then -1 else 0), some pc)

/-- OP_GE -/
def exGE (vm : forth_t) (pc : Nat) : forth_t × Option Nat :=
  let p1 := popV vm
  let p2 := popV p1.2
  (pushV p2.2 (if p2.1 ≥ p1.1 then -1 else 0), some pc)

/-- OP_NE -/
def exNE (vm : forth_t) (pc : Nat) : forth_t × Option Nat :=
  let p1 := popV vm
  let p2 := popV p1.2
  (pushV p2.2 (if p2.1 ≠ p1.1 then -1 else 0), some pc)

/-- OP_BRANCH: unconditional jump. -/
def exBRANCH (vm : forth_t) (pc : Nat) : forth_t × Option Nat :=
  let ra := read_addr vm pc
  (vm, some ra.1)

/-- OP_BRANCH_IF_ZERO: pop a cell; jump if it is zero. -/
def exBRANCH_IF_ZERO (vm : forth_t) (pc : Nat) : forth_t × Option Nat :=
  let ra := read_addr vm pc
  let p1 := popV vm
  (p1.2, some (if p1.1 = 0 then ra.1 else ra.2))

/-- OP_DO `(limit index -- )  R: ( -- limit index)`: two unchecked
return-stack pushes (out-of-bounds writes in C once `rp` reaches
`FF_RET_DEPTH - 1`, see claim C5). -/
def exDO (vm : forth_t) (pc : Nat) : forth_t × Option Nat :=
  let p1 := popV vm          -- index
  let p2 := popV p1.2        -- limit
  ({ p2.2 with rs := p1.1 :: p2.1 :: p2.2.rs }, some pc)

/-- OP_LOOP: increment the index at `rs[rp-1]`; jump back while
`index < limit` (limit at `rs[rp-2]`), else discard the frame.  The C
reads the two slots with no emptiness check (out-of-bounds below two
entries; modelled by 0 defaults). -/
def exLOOP (vm : forth_t) (pc : Nat) : forth_t × Option Nat :=
  let ra := read_addr vm pc
  let index := wrap32 (vm.rs.getD 0 0 + 1)
  let limit := vm.rs.getD 1 0
  if index < limit then ({ vm with rs := vm.rs.set 0 index }, some ra.1)
  else ({ vm with rs := vm.rs.drop 2 }, some ra.2)

/-- OP_I: push the innermost loop index (guarded on `rp ≥ 2`). -/
def exI (vm : forth_t) (pc : Nat) : forth_t × Option Nat :=
  (if 2 ≤ vm.rs.length then pushV vm (vm.rs.getD 0 0) else vm, some pc)

/-- OP_LOAD: fetch the cell at a dictionary address; out-of-range reads
push 0. -/
def exLOAD (vm : forth_t) (pc : Nat) : forth_t × Option Nat :=
  let p1 := popV vm
  (if 0 ≤ p1.1 ∧ p1.1 + 4 ≤ 4096 then pushV p1.2 (cellAt p1.2 p1.1.toNat)
   else pushV p1.2 0, some pc)

/-- OP_STORE: store a cell; out-of-range writes are no-ops. -/
def exSTORE (vm : forth_t) (pc : Nat) : forth_t × Option Nat :=
  let p1 := popV vm          -- addr
  let p2 := popV p1.2        -- val
  (if 0 ≤ p1.1 ∧ p1.1 + 4 ≤ 4096 then storeCell p2.2 p1.1.toNat p2.1
   else p2.2, some pc)

/-- OP_LOAD_BYTE -/
def exLOAD_BYTE (vm : forth_t) (pc : Nat) : forth_t × Option Nat :=
  let p1 := popV vm
  (if 0 ≤ p1.1 ∧ p1.1 < 4096 then pushV p1.2 (dictByte p1.2 p1.1.toNat)
   else pushV p1.2 0, some pc)

/-- OP_STORE_BYTE -/
def exSTORE_BYTE (vm : forth_t) (pc : Nat) : forth_t × Option Nat :=
  let p1 := popV vm          -- addr
  let p2 := popV p1.2        -- val
  (if 0 ≤ p1.1 ∧ p1.1 < 4096 then
     { p2.2 with dict := p2.2.dict.set p1.1.toNat (toNat32 p2.1 % 256) }
   else p2.2, some pc)

/-- OP_ROT `( a b c -- b c a )` (guarded in-place rotation). -/
def exROT (vm : forth_t) (pc : Nat) : forth_t × Option Nat :=
  (match vm.ds with
   | c :: b :: a :: t => { vm with ds := a :: c :: b :: t }
   | _ => vm, some pc)

/-- OP_2DUP `( a b -- a b a b )` (each push individually guarded). -/
def ex2DUP (vm : forth_t) (pc : Nat) : forth_t × Option Nat :=
  (match vm.ds with
   | b :: a :: _ => pushV (pushV vm a) b
   | _ => vm, some pc)

/-- OP_2DROP -/
def ex2DROP (vm : forth_t) (pc : Nat) : forth_t × Option Nat :=
  (match vm.ds with
   | _ :: _ :: t => { vm with ds := t }
   | _ => vm, some pc)

/-- OP_NIP `( a b -- b )` -/
def exNIP (vm : forth_t) (pc : Nat) : forth_t × Option Nat :=
  (match vm.ds with
   | b :: _ :: t => { vm with ds := b :: t }
   | _ => vm, some pc)

/-- OP_TUCK `( a b -- b a b )` -/
def exTUCK (vm : forth_t) (pc : Nat) : forth_t × Option Nat :=
  (match vm.ds with
   | b :: a :: t => pushV { vm with ds := a :: b :: t } b
   | _ => vm, some pc)

/-- OP_TO_R: the one return-stack push that *is* bounds-checked in C. -/
def exTO_R (vm : forth_t) (pc : Nat) : forth_t × Option Nat :=
  let p1 := popV vm
  (if p1.2.rs.length < FF_RET_DEPTH then { p1.2 with rs := p1.1 :: p1.2.rs }
   else p1.2, some pc)

/-- OP_R_FROM -/
def exR_FROM (vm : forth_t) (pc : Nat) : forth_t × Option Nat :=
  (match vm.rs with
   | r :: rest => pushV { vm with rs := rest } r
   | [] => vm, some pc)

/-- OP_R_FETCH -/
def exR_FETCH (vm : forth_t) (pc : Nat) : forth_t × Option Nat :=
  (match vm.rs with
   | r :: _ => pushV vm r
   | [] => vm, some pc)

/-- OP_MOD: modulo by zero yields 0 (C `%`, sign of the dividend). -/
def exMOD (vm : forth_t) (pc : Nat) : forth_t × Option Nat :=
  let p1 := popV vm
  let p2 := popV p1.2
  (pushV p2.2 (if p1.1 ≠ 0 then wrap32 (p2.1.tmod p1.1) else 0), some pc)

/-- OP_NEGATE -/
def exNEGATE (vm : forth_t) (pc : Nat) : forth_t × Option Nat :=
  let p1 := popV vm
  (pushV p1.2 (wrap32 (-p1.1)), some pc)

/-- OP_ABS -/
def exABS (vm : forth_t) (pc : Nat) : forth_t × Option Nat :=
  let p1 := popV vm
  (pushV p1.2 (if p1.1 < 0 then wrap32 (-p1.1) else p1.1), some pc)

/-- OP_MIN -/
def exMIN (vm : forth_t) (pc : Nat) : forth_t × Option Nat :=
  let p1 := popV vm
  let p2 := popV p1.2
  (pushV p2.2 (if p2.1 < p1.1 then p2.1 else p1.1), some pc)

/-- OP_MAX -/
def exMAX (vm : forth_t) (pc : Nat) : forth_t × Option Nat :=
  let p1 := popV vm
  let p2 := popV p1.2
  (pushV p2.2 (if p2.1 > p1.1 then p2.1 else p1.1), some pc)

/-- OP_DIVMOD `( a b -- rem quot )`: 0, 0 on division by zero. -/
def exDIVMOD (vm : forth_t) (pc : Nat) : forth_t × Option Nat :=
  let p1 := popV vm
  let p2 := popV p1.2
  (if p1.1 ≠ 0 then
     pushV (pushV p2.2 (wrap32 (p2.1.tmod p1.1))) (wrap32 (p2.1.tdiv p1.1))
   else pushV (pushV p2.2 0) 0, some pc)

/-- OP_1PLUS (guarded in-place increment). -/
def ex1PLUS (vm : forth_t) (pc : Nat) : forth_t × Option Nat :=
  (match vm.ds with
   | a :: t => { vm with ds := wrap32 (a + 1) :: t }
   | [] => vm, some pc)

/-- OP_1MINUS -/
def ex1MINUS (vm : forth_t) (pc : Nat) : forth_t × Option Nat :=
  (match vm.ds with
   | a :: t => { vm with ds := wrap32 (a - 1) :: t }
   | [] => vm, some pc)

/-- OP_ZERO_EQ -/
def exZERO_EQ (vm : forth_t) (pc : Nat) : forth_t × Option Nat :=
  let p1 := popV vm
  (pushV p1.2 (if p1.1 = 0 then -1 else 0), some pc)

/-- OP_ZERO_LT -/
def exZERO_LT (vm : forth_t) (pc : Nat) : forth_t × Option Nat :=
  let p1 := popV vm
  (pushV p1.2 (if p1.1 < 0 then -1 else 0), some pc)

/-- OP_ZERO_NE -/
def exZERO_NE (vm : forth_t) (pc : Nat) : forth_t × Option Nat :=
  let p1 := popV vm
  (pushV p1.2 (if p1.1 ≠ 0 then -1 else 0), some pc)

/-- OP_QDUP: duplicate the top iff it is non-zero (guarded). -/
def exQDUP (vm : forth_t) (pc : Nat) : forth_t × Option Nat :=
  (match vm.ds with
   | a :: _ => if a ≠ 0 then pushV vm a else vm
   | [] => vm, some pc)

/-- OP_PLUSSTORE `( n addr -- )`: add to the cell in place. -/
def exPLUSSTORE (vm : forth_t) (pc : Nat) : forth_t × Option Nat :=
  let p1 := popV vm          -- addr
  let p2 := popV p1.2        -- val
  (if 0 ≤ p1.1 ∧ p1.1 + 4 ≤ 4096 then
     storeCell p2.2 p1.1.toNat (wrap32 (cellAt p2.2 p1.1.toNat + p2.1))
   else p2.2, some pc)

/-- OP_ALLOT: advance HERE by n; silently a no-op when `n ≤ 0` or the
dictionary would overflow. -/
def exALLOT (vm : forth_t) (pc : Nat) : forth_t × Option Nat :=
  let p1 := popV vm
  (if 0 < p1.1 ∧ (p1.2.here : Int) + p1.1 ≤ 4096 then
     { p1.2 with here := p1.2.here + p1.1.toNat }
   else p1.2, some pc)

/-- OP_EMIT: write one byte. -/
def exEMIT (vm : forth_t) (pc : Nat) : forth_t × Option Nat :=
  let p1 := popV vm
  (addOut p1.2 [toNat32 p1.1 % 256], some pc)

/-- OP_KEY: read one byte, or −1 at end of input. -/
def exKEY (vm : forth_t) (pc : Nat) : forth_t × Option Nat :=
  (match vm.input with
   | b :: rest => pushV { vm with input := rest } (b : Int)
   | [] => pushV vm (-1), some pc)

/-- OP_CR -/
def exCR (vm : forth_t) (pc : Nat) : forth_t × Option Nat :=
  (addOut vm [10], some pc)

/-- OP_TYPE `( addr len -- )`: print `len` dictionary bytes (nothing when
the range check fails; a negative length prints nothing). -/
def exTYPE (vm : forth_t) (pc : Nat) : forth_t × Option Nat :=
  let p1 := popV vm          -- len
  let p2 := popV p1.2        -- addr
  (if 0 ≤ p2.1 ∧ p2.1 + p1.1 ≤ 4096 then
     addOut p2.2 ((List.range p1.1.toNat).map (fun i => dictByte p2.2 (p2.1.toNat + i)))
   else p2.2, some pc)

/-- OP_HERE -/
def exHERE (vm : forth_t) (pc : Nat) : forth_t × Option Nat :=
  (pushV vm vm.here, some pc)

/-- OP_DOT_S: non-destructive stack display `<n> v0 v1 …`. -/
def exDOT_S (vm : forth_t) (pc : Nat) : forth_t × Option Nat :=
  (addOut vm (strBytes ("<" ++ toString vm.ds.length ++ "> ") ++
    (vm.ds.reverse.map dotBytes).flatten), some pc)

/-- OP_DEPTH -/
def exDEPTH (vm : forth_t) (pc : Nat) : forth_t × Option Nat :=
  (pushV vm vm.ds.length, some pc)

/-- OP_CLEAR -/
def exCLEAR (vm : forth_t) (pc : Nat) : forth_t × Option Nat :=
  ({ vm with ds := [] }, some pc)

/-- OP_WORDS: list all word names. -/
def exWORDS (vm : forth_t) (pc : Nat) : forth_t × Option Nat :=
  (addOut vm (strBytes "Words: " ++
    (vm.words.map (fun w => strBytes (w.name ++ " "))).flatten ++ [10]), some pc)

/-- One `switch (op)` case of the C `execute` dispatch loop.  `pc` is the
program counter after the opcode byte was fetched.  The result is the new
state plus `some pc'` to keep running, or `none` when the `execute` call
returns (EXIT with an empty return stack, or the unknown-opcode error,
which reports to stderr and terminates the call).  OP_SEE (62) is a
run-time no-op (never emitted); values ≥ 63 hit the default case. -/
def execOp (vm : forth_t) (op : Nat) (pc : Nat) : forth_t × Option Nat :=
  match op with
  | 0 => exEXIT vm pc
  | 1 => exLIT vm pc
  | 2 => exCALL vm pc
  | 3 => exADD vm pc
  | 4 => exSUB vm pc
  | 5 => exMUL vm pc
  | 6 => exDIV vm pc
  | 7 => exDUP vm pc
  | 8 => exDROP vm pc
  | 9 => exSWAP vm pc
  | 10 => exOVER vm pc
  | 11 => exDOT vm pc
  | 12 => exAND vm pc
  | 13 => exOR vm pc
  | 14 => exXOR vm pc
  | 15 => exNOT vm pc
  | 16 => exLT vm pc
  | 17 => exGT vm pc
  | 18 => exEQ vm pc
  | 19 => exLE vm pc
  | 20 => exGE vm pc
  | 21 => exNE vm pc
  | 22 => exBRANCH vm pc
  | 23 => exBRANCH_IF_ZERO vm pc
  | 24 => exDO vm pc
  | 25 => exLOOP vm pc
  | 26 => exI vm pc
  | 27 => exLOAD vm pc
  | 28 => exSTORE vm pc
  | 29 => exLOAD_BYTE vm pc
  | 30 => exSTORE_BYTE vm pc
  | 31 => exROT vm pc
  | 32 => ex2DUP vm pc
  | 33 => ex2DROP vm pc
  | 34 => exNIP vm pc
  | 35 => exTUCK vm pc
  | 36 => exTO_R vm pc
  | 37 => exR_FROM vm pc
  | 38 => exR_FETCH vm pc
  | 39 => exMOD vm pc
  | 40 => exNEGATE vm pc
  | 41 => exABS vm pc
  | 42 => exMIN vm pc
  | 43 => exMAX vm pc
  | 44 => exDIVMOD vm pc
  | 45 => ex1PLUS vm pc
  | 46 => ex1MINUS vm pc
  | 47 => exZERO_EQ vm pc
  | 48 => exZERO_LT vm pc
  | 49 => exZERO_NE vm pc
  | 50 => exQDUP vm pc
  | 51 => exPLUSSTORE vm pc
  | 52 => exALLOT vm pc
  | 53 => exEMIT vm pc
  | 54 => exKEY vm pc
  | 55 => exCR vm pc
  | 56 => exTYPE vm pc
  | 57 => exHERE vm pc
  | 58 => exDOT_S vm pc
  | 59 => exDEPTH vm pc
  | 60 => exCLEAR vm pc
  | 61 => exWORDS vm pc
  | 62 => (vm, some pc)   -- OP_SEE: handled at parse time; run-time no-op
  | _ => (vm, none)       -- unknown opcode: error message, terminate call


/-- Fetch-decode-execute of a single instruction at `pc`. -/
def execStep (vm : forth_t) (pc : Nat) : forth_t × Option Nat :=
  execOp vm (dictByte vm pc) ((pc + 1) % 2 ^ 16)

/-- The C `execute` dispatch loop, with explicit fuel (the C loop can
diverge on looping bytecode; every claim instantiates enough fuel). -/
def executeN : Nat → forth_t → Nat → forth_t
  | 0, vm, _ => vm
  | fuel + 1, vm, pc =>
    match execStep vm pc with
    | (vm', none) => vm'
    | (vm', some pc') => executeN fuel vm' pc'

/-- The C `execute(vm, start)` with `efuel` dispatch steps available. -/
def execute (efuel : Nat) (vm : forth_t) (start : Nat) : forth_t :=
  executeN efuel vm (start % 2 ^ 16)

/-- C-locale `isspace`: space and the control characters 9–13. -/
def isSpaceC (c : Char) : Bool := c.toNat = 32 ∨ (9 ≤ c.toNat ∧ c.toNat ≤ 13)

/-- C-locale `toupper` on a byte. -/
def ucC (c : Char) : Char :=
  if 'a' ≤ c ∧ c ≤ 'z' then Char.ofNat (c.toNat - 32) else c

/-- The C `next_token`: skip leading whitespace; if nothing remains, end of
line; otherwise the token is the first `FF_NAME_MAX` characters of the
whitespace-free run, upper-cased, and the remainder starts after the whole
run. -/
def next_token (s : List Char) : Option (String × List Char) :=
  let s1 := s.dropWhile isSpaceC
  match s1 with
  | [] => none
  | _ :: _ =>
    some ((((s1.takeWhile (fun c => !isSpaceC c)).take FF_NAME_MAX).map ucC).asString,
      s1.dropWhile (fun c => !isSpaceC c))

/-- The C `strtol(tok, &end, 10)` combined with the caller's
`*tok && *end == '\0'` check: an optional sign followed by at least one
decimal digit, and nothing else. -/
def parseNum (t : String) : Option Int :=
  let cs := t.toList
  let signed : Int × List Char :=
    match cs with
    | '-' :: r => (-1, r)
    | '+' :: r => (1, r)
    | r => (1, r)
  if signed.2 ≠ [] ∧ signed.2.all Char.isDigit then
    some (signed.1 * signed.2.foldl (fun acc c => acc * 10 + ((c.toNat : Int) - 48)) 0)
  else none

/-- The C `interpret_token`: the fall-through token handler (parenthesis, colon
and semicolon return immediately because the line loop already handled
them; `I` is inlined; otherwise word lookup, then number parsing).  The
`Bool` is the C success flag. -/
def interpret_token (efuel : Nat) (vm : forth_t) (t : String) : forth_t × Bool :=
  if t = "(" then (vm, true)
  else if t = ":" then (vm, true)
  else if t = ";" then (vm, true)
  else if t = "I" then
    (if vm.compiling then emit_byte vm OP_I
     else if 2 ≤ vm.rs.length then pushV vm (vm.rs.getD 0 0) else vm, true)
  else
    match find_word vm t with
    | some w =>
      if vm.compiling then (emit_addr (emit_byte vm OP_CALL) w.addr, true)
      else (execute efuel vm w.addr, true)
    | none =>
      match parseNum t with
      | some v =>
        if vm.compiling then (emit_cell (emit_byte vm OP_LIT) (wrap32 v), true)
        else (pushV vm (wrap32 v), true)
      | none => (vm, false)

/-- The image the SAVEB handler writes: magic, version, HERE, the counts,
the first HERE dictionary bytes and the live word table. -/
def savebImage (vm : forth_t) : ImageFile :=
  ⟨0x46545448, 1, vm.here, vm.dict.take vm.here, vm.words, vm.builtin_count⟩

/-- The LOADB handler's validation and state replacement: check magic,
version and sizes, then overwrite the first HERE dictionary bytes, the
word table and the counts.  `none` is the C error return.  (On a C
short-read failure the dictionary may be partially overwritten — the spec
permits partial loads — but no claim exercises a truncated file, so the
error result here keeps the pre-call state.) -/
def loadbApply (vm : forth_t) (f : ImageFile) : Option forth_t :=
  if f.magic ≠ 0x46545448 then none
  else if f.version ≠ 1 then none
  else if f.fhere > FF_DICT_SIZE ∨ f.fwords.length > FF_MAX_WORDS then none
  else if f.dictBytes.length ≠ f.fhere then none
  else some { vm with
    dict := f.dictBytes ++ vm.dict.drop f.fhere,
    here := f.fhere,
    words := f.fwords,
    builtin_count := f.fbuiltin }

/-- The `:` handler body after the name token was read: record the new
word at the current HERE (silently dropped if the table is full, as in C)
and start compiling. -/
def startDef (vm : forth_t) (nm : String) : forth_t :=
  { add_word vm nm vm.here with compiling := true }

/-- The `;` handler: emit EXIT and stop compiling.  (No check that a
definition was open and no check of the control stack — see claims C3 and
C4.) -/
def endDef (vm : forth_t) : forth_t :=
  { emit_byte vm OP_EXIT with compiling := false }

/-- The CONSTANT handler body after the name was read and the stack
checked: pop the value and define a `LIT value; EXIT` word. -/
def mkConstant (vm : forth_t) (nm : String) : forth_t :=
  let p := popV vm
  let wa := p.2.here
  add_word (emit_byte (emit_cell (emit_byte p.2 OP_LIT) p.1) OP_EXIT) nm wa

/-- The VARIABLE handler body: reserve one zeroed cell, then define a
`LIT cell_addr; EXIT` word. -/
def mkVariable (vm : forth_t) (nm : String) : forth_t :=
  let va := vm.here
  let v1 := emit_byte (emit_byte (emit_byte (emit_byte vm 0) 0) 0) 0
  let wa := v1.here
  add_word (emit_byte (emit_cell (emit_byte v1 OP_LIT) (va : Int)) OP_EXIT) nm wa

/-- The IF handler (and, identically in C, the WHILE handler): emit
BRANCH_IF_ZERO, push the patch site, reserve the 2-byte operand.  The
control-stack push has no capacity check in C (see claim C9). -/
def ifTok (vm : forth_t) : forth_t :=
  let v1 := emit_byte vm OP_BRANCH_IF_ZERO
  emit_addr { v1 with cstack := v1.here :: v1.cstack } 0

/-- The THEN handler body (the caller guarded `csp > 0`): pop the patch
site and patch it with the current HERE. -/
def thenTok (vm : forth_t) : forth_t :=
  match vm.cstack with
  | a :: rest => patch_addr { vm with cstack := rest } a vm.here
  | [] => vm

/-- The ELSE handler body: emit BRANCH with a reserved operand, patch the
IF site to the location after it, push the ELSE site. -/
def elseTok (vm : forth_t) : forth_t :=
  let v1 := emit_byte vm OP_BRANCH
  let ea := v1.here
  let v2 := emit_addr v1 0
  match v2.cstack with
  | ia :: rest =>
    let v3 := patch_addr { v2 with cstack := rest } ia v2.here
    { v3 with cstack := ea :: v3.cstack }
  | [] => v2

/-- The DO handler: emit DO and push the loop-head address (unchecked
control-stack push, see claim C9). -/
def doTok (vm : forth_t) : forth_t :=
  let v1 := emit_byte vm OP_DO
  { v1 with cstack := v1.here :: v1.cstack }

/-- The LOOP handler body: emit LOOP with the popped loop-head target. -/
def loopTok (vm : forth_t) : forth_t :=
  let v1 := emit_byte vm OP_LOOP
  match v1.cstack with
  | a :: rest => emit_addr { v1 with cstack := rest } a
  | [] => v1

/-- The BEGIN handler: push the current HERE (unchecked push). -/
def beginTok (vm : forth_t) : forth_t :=
  { vm with cstack := vm.here :: vm.cstack }

/-- The REPEAT handler body (caller guarded `csp ≥ 2`): pop the WHILE
site and the BEGIN target, emit BRANCH back, patch the WHILE exit. -/
def repeatTok (vm : forth_t) : forth_t :=
  match vm.cstack with
  | wa :: ba :: rest =>
    let v1 := emit_addr (emit_byte { vm with cstack := rest } OP_BRANCH) ba
    patch_addr v1 wa v1.here
  | _ => vm

/-- The parenthesis-comment skip of the line loop: drop input up to and
including the next `)`. -/
def skipParen (r : List Char) : List Char :=
  (r.dropWhile (fun c => !(c == ')'))).drop 1

/-- The C `strchr`: index of the first occurrence of `c`. -/
def strchrIdx (c : Char) : List Char → Option Nat
  | [] => none
  | x :: xs => if x = c then some 0 else (strchrIdx c xs).map (· + 1)

/-- The backslash-comment preprocessing at the top of `interpret_line`:
if the *first* backslash of the line is at the start or preceded by
whitespace, only the text before it (truncated to the C's 255-byte copy
buffer) is processed; otherwise the whole line is.  (The C returns
success immediately when the kept part is empty; processing the empty
list gives the same result.) -/
def stripComment (s : List Char) : List Char :=
  match strchrIdx '\\' s with
  | none => s
  | some i =>
    if i = 0 ∨ isSpaceC (s.getD (i - 1) 'A') then s.take (min i 255)
    else s

/-- The result of `interpret_line`: the C `return 1` (ok), `return 0`
(error), or the `exit(0)` performed by the BYE/QUIT/EXIT handler
(`exited` carries the state at the moment the process terminates with
status 0). -/
inductive Res where
  | ok : forth_t → Res
  | err : forth_t → Res
  | exited : forth_t → Res
deriving DecidableEq

/-- The token names whose handlers read one extra token (a word name or a
file name) from the line. -/
def nameConsumers : List String :=
  [":", "CONSTANT", "VARIABLE", "SEE", "LIST", "LOAD", "SAVE", "SAVEB", "LOADB"]

mutual

/-- The token loop of `interpret_line`, one branch per C handler, in the
C's dispatch order.  `fuel` bounds loop iterations and LOAD recursion
(the C recursion via included files is unbounded); `efuel` is handed to
each `execute` call.  Running out of fuel yields `err`; top-level entry
via `interpret_line` provides enough fuel for any line that does not pull
in files via LOAD. -/
def interpLoop : Nat → Nat → forth_t → List Char → Res
  | 0, _, vm, _ => .err vm
  | fuel + 1, efuel, vm, p =>
    match next_token p with
    | none => .ok vm
    | some (t, r) =>
      if t = "(" then interpLoop fuel efuel vm (skipParen r)
      else if t = ":" then
        match next_token r with
        | none => .err vm
        | some (nm, r2) => interpLoop fuel efuel (startDef vm nm) r2
      else if t = ";" then interpLoop fuel efuel (endDef vm) r
      else if t = "BYE" ∨ t = "QUIT" ∨ t = "EXIT" then .exited vm
      else if t = "CONSTANT" then
        match next_token r with
        | none => .err vm
        | some (nm, r2) =>
          if vm.ds.length < 1 then .err vm
          else interpLoop fuel efuel (mkConstant vm nm) r2
      else if t = "VARIABLE" then
        match next_token r with
        | none => .err vm
        | some (nm, r2) => interpLoop fuel efuel (mkVariable vm nm) r2
      else if t = "SEE" ∨ t = "LIST" then
        match next_token r with
        | none => .err vm
        | some (nm, r2) =>
          match find_word vm nm with
          | none => .err vm
          | some _ => interpLoop fuel efuel vm r2   -- listing text not modelled
      else if t = "LOAD" then
        match next_token r with
        | none => .err vm
        | some (nm, r2) =>
          match vm.tfs.lookup nm with
          | none => .err vm
          | some lines =>
            match interpLines fuel efuel vm lines with
            | .ok vm' =>
              interpLoop fuel efuel (addOut vm' (strBytes ("Loaded " ++ nm ++ "\n"))) r2
            | other => other
      else if t = "SAVE" then
        match next_token r with
        | none => .err vm
        | some (nm, r2) =>
          -- the decompiled text written to the file is not modelled
          interpLoop fuel efuel
            (addOut vm (strBytes ("Saved " ++ toString (vm.words.length - vm.builtin_count)
              ++ " words to " ++ nm ++ "\n"))) r2
      else if t = "SAVEB" then
        match next_token r with
        | none => .err vm
        | some (nm, r2) =>
          interpLoop fuel efuel
            (addOut { vm with bfs := (nm, savebImage vm) :: vm.bfs }
              (strBytes ("Saved bytecode (" ++ toString vm.here ++ " bytes, "
                ++ toString vm.words.length ++ " words) to " ++ nm ++ "\n"))) r2
      else if t = "LOADB" then
        match next_token r with
        | none => .err vm
        | some (nm, r2) =>
          match vm.bfs.lookup nm with
          | none => .err vm
          | some f =>
            match loadbApply vm f with
            | none => .err vm
            | some vm' =>
              interpLoop fuel efuel
                (addOut vm' (strBytes ("Loaded bytecode (" ++ toString vm'.here
                  ++ " bytes, " ++ toString vm'.words.length ++ " words) from "
                  ++ nm ++ "\n"))) r2
      else if t = ".\"" then
        let r1 := r.dropWhile isSpaceC
        let body := r1.takeWhile (fun c => !(c == '"'))
        match r1.dropWhile (fun c => !(c == '"')) with
        | [] => .err vm   -- unterminated string
        | _ :: r2 =>
          if vm.compiling then
            let v1 := emit_byte vm OP_BRANCH
            let bl := v1.here
            let v2 := emit_addr v1 0
            let sa := v2.here
            let v3 := body.foldl (fun v c => emit_byte v (c.toNat % 256)) v2
            let v4 := patch_addr v3 bl v3.here
            let v5 := emit_byte (emit_cell (emit_byte v4 OP_LIT) (sa : Int)) OP_LIT
            interpLoop fuel efuel
              (emit_byte (emit_cell v5 (body.length : Int)) OP_TYPE) r2
          else interpLoop fuel efuel (addOut vm (body.map (fun c => c.toNat % 256))) r2
      else if t = "IF" then
        if !vm.compiling then .err vm
        else interpLoop fuel efuel (ifTok vm) r
      else if t = "THEN" then
        if !vm.compiling ∨ vm.cstack.length = 0 then .err vm
        else interpLoop fuel efuel (thenTok vm) r
      else if t = "ELSE" then
        if !vm.compiling ∨ vm.cstack.length = 0 then .err vm
        else interpLoop fuel efuel (elseTok vm) r
      else if t = "DO" then
        if !vm.compiling then .err vm
        else interpLoop fuel efuel (doTok vm) r
      else if t = "LOOP" then
        if !vm.compiling ∨ vm.cstack.length = 0 then .err vm
        else interpLoop fuel efuel (loopTok vm) r
      else if t = "BEGIN" then
        if !vm.compiling then .err vm
        else interpLoop fuel efuel (beginTok vm) r
      else if t = "WHILE" then
        if !vm.compiling ∨ vm.cstack.length = 0 then .err vm
        else interpLoop fuel efuel (ifTok vm) r
      else if t = "REPEAT" then
        if !vm.compiling ∨ vm.cstack.length < 2 then .err vm
        else interpLoop fuel efuel (repeatTok vm) r
      else
        match interpret_token efuel vm t with
        | (vm', true) => interpLoop fuel efuel vm' r
        | (vm', false) => .err vm'

/-- The LOAD handler's file loop: interpret each line of the file (with
its own backslash preprocessing, as `interpret_line` does in C), stopping
at the first failure. -/
def interpLines : Nat → Nat → forth_t → List (List Char) → Res
  | _, _, vm, [] => .ok vm
  | 0, _, vm, _ :: _ => .err vm
  | fuel + 1, efuel, vm, l :: ls =>
    match interpLoop fuel efuel vm (stripComment l) with
    | .ok vm' => interpLines fuel efuel vm' ls
    | other => other

end

/-- The sequence of tokens the line loop reads from a given line via
`next_token`, mirroring the loop's consumption exactly: the parenthesis
and `."` handlers skip raw input, and the name-consuming handlers read
one extra token.  (Where the loop would stop — error, BYE, end of line —
this overapproximates by continuing, which only strengthens hypotheses
stated with it.) -/
def procTokens : Nat → List Char → List String
  | 0, _ => []
  | fuel + 1, p =>
    match next_token p with
    | none => []
    | some (t, r) =>
      if t = "(" then t :: procTokens fuel (skipParen r)
      else if t = ".\"" then
        match (r.dropWhile isSpaceC).dropWhile (fun c => !(c == '"')) with
        | [] => [t]
        | _ :: r2 => t :: procTokens fuel r2
      else if t ∈ nameConsumers then
        match next_token r with
        | none => [t]
        | some (nm, r2) => t :: nm :: procTokens fuel r2
      else t :: procTokens fuel r

/-- The C `interpret_line`: backslash preprocessing, then the token loop.  The
loop consumes at least one character per iteration, so `length + 1` fuel
never runs out on a line without LOAD directives; `execute` calls get
1000 dispatch steps (ample for every program a claim runs). -/
def interpret_line (vm : forth_t) (line : List Char) : Res :=
  interpLoop (line.length + 1) 1000 vm (stripComment line)

/-- The zero-initialised VM (`memset(vm, 0, sizeof(*vm))`), before the
built-ins are added; the modelled I/O environment starts empty. -/
def emptyVm : forth_t :=
  ⟨[], [], List.replicate FF_DICT_SIZE 0, 0, [], false, [], 0, [], [], [], []⟩

/-- The built-in primitives added by `init_forth`, in source order: each
is a one-opcode body followed by EXIT. -/
def prims : List (String × Nat) :=
  [("+", 3), ("-", 4), ("*", 5), ("/", 6), ("DUP", 7), ("DROP", 8), ("SWAP", 9),
   ("OVER", 10), (".", 11), ("AND", 12), ("OR", 13), ("XOR", 14), ("NOT", 15),
   ("<", 16), (">", 17), ("=", 18), ("<=", 19), (">=", 20), ("<>", 21),
   ("@", 27), ("!", 28), ("C@", 29), ("C!", 30), ("I", 26),
   ("ROT", 31), ("2DUP", 32), ("2DROP", 33), ("NIP", 34), ("TUCK", 35),
   (">R", 36), ("R>", 37), ("R@", 38),
   ("MOD", 39), ("NEGATE", 40), ("ABS", 41), ("MIN", 42), ("MAX", 43),
   ("/MOD", 44), ("1+", 45), ("1-", 46),
   ("0=", 47), ("0<", 48), ("0<>", 49), ("?DUP", 50),
   ("+!", 51), ("ALLOT", 52),
   ("EMIT", 53), ("KEY", 54), ("CR", 55), ("HERE", 57),
   (".S", 58), ("DEPTH", 59), ("CLEAR", 60), ("WORDS", 61)]

/-- Register one primitive: emit its opcode and EXIT, record the word. -/
def addPrim (vm : forth_t) (name : String) (op : Nat) : forth_t :=
  add_word (emit_byte (emit_byte vm op) OP_EXIT) name vm.here

/-- The C `init_forth`: zero the state, install the primitives, record the
builtin boundary. -/
def init_forth : forth_t :=
  let v := prims.foldl (fun vm pr => addPrim vm pr.1 pr.2) emptyVm
  { v with builtin_count := v.words.length }

/-- The state carried by an interpretation result. -/
def Res.vmOf : Res → forth_t
  | .ok vm => vm
  | .err vm => vm
  | .exited vm => vm

/-- Whether a result is the C success return. -/
def Res.isOk : Res → Bool
  | .ok _ => true
  | _ => false

/-- Forget the modelled I/O environment (stdout so far, pending stdin,
and the two file systems): what is left is exactly the state the C
`forth_t` persists — dictionary, word table, stacks and compile state. -/
def stripEnv (vm : forth_t) : forth_t :=
  { vm with output := [], input := [], tfs := [], bfs := [] }

/-- The dictionary is full-sized and all bytes at offsets ≥ HERE are
still zero (as after `init_forth`, whose `memset` zeroes the arena and
which only writes below HERE). -/
def tailZeroed (vm : forth_t) : Prop :=
  vm.dict.length = FF_DICT_SIZE ∧ vm.here ≤ FF_DICT_SIZE ∧
    vm.dict.drop vm.here = List.replicate (FF_DICT_SIZE - vm.here) 0

theorem tailZeroed_emptyVm : tailZeroed emptyVm := by
  refine ⟨by simp [emptyVm], by simp [emptyVm], ?_⟩
  simp [emptyVm]

theorem tailZeroed_emit_byte (vm : forth_t) (b : Nat) (h : tailZeroed vm) :
    tailZeroed (emit_byte vm b) := by
  obtain ⟨hl, hh, hd⟩ := h
  unfold emit_byte
  split
  · exact ⟨hl, hh, hd⟩
  · rename_i h4
    have h4' : vm.here < FF_DICT_SIZE := by omega
    refine ⟨by simpa using hl, by simpa using h4', ?_⟩
    show (vm.dict.set vm.here (b % 256)).drop (vm.here + 1) =
      List.replicate (FF_DICT_SIZE - (vm.here + 1)) 0
    rw [List.drop_set_of_lt _ _ (by omega), ← List.tail_drop, hd, List.tail_replicate]
    exact congrArg (fun k => List.replicate k (0 : Nat)) (by omega)

theorem tailZeroed_add_word (vm : forth_t) (nm : String) (a : Nat)
    (h : tailZeroed vm) : tailZeroed (add_word vm nm a) := by
  unfold add_word
  split
  · exact h
  · exact h

theorem tailZeroed_addPrim (vm : forth_t) (nm : String) (op : Nat)
    (h : tailZeroed vm) : tailZeroed (addPrim vm nm op) :=
  tailZeroed_add_word _ _ _ (tailZeroed_emit_byte _ _ (tailZeroed_emit_byte _ _ h))

theorem tailZeroed_foldl (ps : List (String × Nat)) (vm : forth_t)
    (h : tailZeroed vm) :
    tailZeroed (ps.foldl (fun v pr => addPrim v pr.1 pr.2) vm) := by
  induction ps generalizing vm with
  | nil => exact h
  | cons p ps ih => exact ih _ (tailZeroed_addPrim _ _ _ h)

theorem tailZeroed_setBuiltin (vm : forth_t) (n : Nat) (h : tailZeroed vm) :
    tailZeroed { vm with builtin_count := n } := h

theorem tailZeroed_init_forth : tailZeroed init_forth := by
  unfold init_forth
  exact tailZeroed_setBuiltin _ _ (tailZeroed_foldl prims emptyVm tailZeroed_emptyVm)

theorem init_forth_ds : init_forth.ds = [] := by decide

theorem init_forth_rs : init_forth.rs = [] := by decide

theorem init_forth_cstack : init_forth.cstack = [] := by decide

theorem init_forth_compiling : init_forth.compiling = false := by decide

theorem init_forth_env : init_forth.output = [] ∧ init_forth.input = [] ∧
    init_forth.tfs = [] ∧ init_forth.bfs = [] := by decide

/-- Claim C2 — the round-trip property as stated ("for every VM state,
SAVEB then a fresh `init_forth` then LOADB yields a VM whose subsequent
behavior on any input is identical to the original VM's") is false: the
binary image records only the dictionary up to HERE and the word table,
not the stacks.  Concretely, after the line `5` the VM holds 5 on its
data stack; the round-tripped VM's stack is empty, so on the subsequent
input `.` the original prints `5 ` (bytes 53, 32) while the round-tripped
VM prints nothing. -/
theorem claim_C2_counterexample :
    (interpret_line ((interpret_line init_forth ("5".toList)).vmOf) (".".toList)).vmOf.output
        = [53, 32] ∧
      (interpret_line
          ((loadbApply init_forth
            (savebImage ((interpret_line init_forth ("5".toList)).vmOf))).getD emptyVm)
          (".".toList)).vmOf.output = [] ∧
      [53, 32] ≠ ([] : List Nat) := by
  decide

/-- Claim C2 (amended) — for every VM state whose data, return and
control stacks are empty, which is not mid-compilation, and whose
dictionary bytes at offsets ≥ HERE are still zero (with HERE at least the
fresh VM's HERE, so that the builtin bodies are part of the image),
executing SAVEB, constructing a fresh VM with `init_forth`, and executing
LOADB of that file restores the dictionary, HERE, the word table and the
builtin boundary exactly; the resulting VM state coincides with the
original's up to the modelled I/O environment, so its subsequent behavior
on any input is identical. -/
theorem claim_C2_roundtrip (vm : forth_t)
    (hds : vm.ds = []) (hrs : vm.rs = []) (hcs : vm.cstack = [])
    (hcp : vm.compiling = false)
    (hlen : vm.dict.length = FF_DICT_SIZE)
    (hh : vm.here ≤ FF_DICT_SIZE)
    (hih : init_forth.here ≤ vm.here)
    (htail : vm.dict.drop vm.here = List.replicate (FF_DICT_SIZE - vm.here) 0)
    (hw : vm.words.length ≤ FF_MAX_WORDS) :
    (loadbApply init_forth (savebImage vm)).map stripEnv = some (stripEnv vm) := by
  have hini := tailZeroed_init_forth
  have hinit_drop : init_forth.dict.drop vm.here
      = List.replicate (FF_DICT_SIZE - vm.here) 0 := by
    have h1 : init_forth.dict.drop vm.here
        = (init_forth.dict.drop init_forth.here).drop (vm.here - init_forth.here) := by
      rw [List.drop_drop]
      congr 1
      omega
    rw [h1, hini.2.2, List.drop_replicate]
    exact congrArg (fun k => List.replicate k (0 : Nat)) (by omega)
  unfold loadbApply savebImage
  rw [if_neg (by simp), if_neg (by simp),
    if_neg (by
      show ¬(vm.here > FF_DICT_SIZE ∨ vm.words.length > FF_MAX_WORDS)
      push_neg
      exact ⟨hh, hw⟩),
    if_neg (by
      show ¬((vm.dict.take vm.here).length ≠ vm.here)
      simp [List.length_take, hlen]
      omega)]
  show some _ = some _
  refine congrArg some ?_
  unfold stripEnv
  dsimp only
  rw [forth_t.mk.injEq]
  refine ⟨?_, ?_, ?_, rfl, rfl, ?_, ?_, rfl, rfl, rfl, rfl, rfl⟩
  · rw [init_forth_ds, hds]
  · rw [init_forth_rs, hrs]
  · rw [hinit_drop, ← htail, List.take_append_drop]
  · rw [init_forth_compiling, hcp]
  · rw [init_forth_cstack, hcs]

theorem claim_C2_roundtrip_witness :
    (loadbApply init_forth (savebImage init_forth)).map stripEnv
      = some (stripEnv init_forth) :=
  claim_C2_roundtrip init_forth init_forth_ds init_forth_rs init_forth_cstack
    init_forth_compiling tailZeroed_init_forth.1 tailZeroed_init_forth.2.1
    (le_refl _) tailZeroed_init_forth.2.2 (by decide)

/-- The opcodes whose executor case pops from the data stack, or
pop-and-push through a guarded in-place update (their classical stack
effect consumes at least one item). -/
def dsPopOps : List Nat :=
  [3, 4, 5, 6, 7, 8, 9, 10, 11, 12, 13, 14, 15, 16, 17, 18, 19, 20, 21,
   23, 24, 27, 28, 29, 30, 31, 32, 33, 34, 35, 36, 39, 40, 41, 42, 43, 44,
   45, 46, 47, 48, 49, 50, 51, 52, 53, 56]

/-- How many cells each opcode of `dsPopOps` leaves on an *initially
empty* data stack: the binary operators, the unary operators and the
loads push their one result (computed from popped zeros), DIVMOD pushes
two, and the rest push nothing (the guarded shuffles and in-place updates
degenerate to no-ops, the stores and control ops consume only). -/
def emptyNet (op : Nat) : Nat :=
  match op with
  | 3 | 4 | 5 | 6 | 12 | 13 | 14 | 15 | 16 | 17 | 18 | 19 | 20 | 21
  | 27 | 29 | 39 | 40 | 41 | 42 | 43 | 47 | 48 | 49 => 1
  | 44 => 2
  | _ => 0

/-- Claim C1 — as stated ("executing a popping opcode on an empty data
stack … leaves the data stack empty afterwards") the claim is false:
OP_ADD pops two zeros off the empty stack and then *pushes their sum*, so
the stack afterwards holds one cell (0), not none. -/
theorem claim_C1_counterexample :
    (execOp emptyVm OP_ADD 0).1.ds = [0] ∧ (execOp emptyVm OP_ADD 0).1.ds ≠ [] := by
  decide

/-- Claim C1 (amended) — for every opcode that would pop from the data
stack, executing that single opcode on a state whose data stack is empty
does not crash and each pop behaves as if it popped 0; afterwards the
data stack holds exactly the values the opcode pushes — `emptyNet` many
cells — so it is left empty only for opcodes that push nothing. -/
theorem claim_C1_empty_pop (vm : forth_t) (pc : Nat) (op : Nat)
    (hds : vm.ds = []) (hop : op ∈ dsPopOps) :
    ((execOp vm op pc).1).ds.length = emptyNet op := by
  simp only [dsPopOps, List.mem_cons, List.not_mem_nil, or_false] at hop
  rcases hop with rfl|rfl|rfl|rfl|rfl|rfl|rfl|rfl|rfl|rfl|rfl|rfl|rfl|rfl|rfl|rfl|rfl|rfl|rfl|rfl|rfl|rfl|rfl|rfl|rfl|rfl|rfl|rfl|rfl|rfl|rfl|rfl|rfl|rfl|rfl|rfl|rfl|rfl|rfl|rfl|rfl|rfl|rfl|rfl|rfl|rfl|rfl
  · show ((exADD vm pc).1).ds.length = 1
    simp [exADD, popV, pushV, addOut, storeCell, hds, FF_STACK_DEPTH]
  · show ((exSUB vm pc).1).ds.length = 1
    simp [exSUB, popV, pushV, addOut, storeCell, hds, FF_STACK_DEPTH]
  · show ((exMUL vm pc).1).ds.length = 1
    simp [exMUL, popV, pushV, addOut, storeCell, hds, FF_STACK_DEPTH]
  · show ((exDIV vm pc).1).ds.length = 1
    simp [exDIV, popV, pushV, addOut, storeCell, hds, FF_STACK_DEPTH]
  · show ((exDUP vm pc).1).ds.length = 0
    simp [exDUP, popV, pushV, addOut, storeCell, hds, FF_STACK_DEPTH]
  · show ((exDROP vm pc).1).ds.length = 0
    simp [exDROP, popV, pushV, addOut, storeCell, hds, FF_STACK_DEPTH]
  · show ((exSWAP vm pc).1).ds.length = 0
    simp [exSWAP, popV, pushV, addOut, storeCell, hds, FF_STACK_DEPTH]
  · show ((exOVER vm pc).1).ds.length = 0
    simp [exOVER, popV, pushV, addOut, storeCell, hds, FF_STACK_DEPTH]
  · show ((exDOT vm pc).1).ds.length = 0
    simp [exDOT, popV, pushV, addOut, storeCell, hds, FF_STACK_DEPTH]
  · show ((exAND vm pc).1).ds.length = 1
    simp [exAND, popV, pushV, addOut, storeCell, hds, FF_STACK_DEPTH]
  · show ((exOR vm pc).1).ds.length = 1
    simp [exOR, popV, pushV, addOut, storeCell, hds, FF_STACK_DEPTH]
  · show ((exXOR vm pc).1).ds.length = 1
    simp [exXOR, popV, pushV, addOut, storeCell, hds, FF_STACK_DEPTH]
  · show ((exNOT vm pc).1).ds.length = 1
    simp [exNOT, popV, pushV, addOut, storeCell, hds, FF_STACK_DEPTH]
  · show ((exLT vm pc).1).ds.length = 1
    simp [exLT, popV, pushV, addOut, storeCell, hds, FF_STACK_DEPTH]
  · show ((exGT vm pc).1).ds.length = 1
    simp [exGT, popV, pushV, addOut, storeCell, hds, FF_STACK_DEPTH]
  · show ((exEQ vm pc).1).ds.length = 1
    simp [exEQ, popV, pushV, addOut, storeCell, hds, FF_STACK_DEPTH]
  · show ((exLE vm pc).1).ds.length = 1
    simp [exLE, popV, pushV, addOut, storeCell, hds, FF_STACK_DEPTH]
  · show ((exGE vm pc).1).ds.length = 1
    simp [exGE, popV, pushV, addOut, storeCell, hds, FF_STACK_DEPTH]
  · show ((exNE vm pc).1).ds.length = 1
    simp [exNE, popV, pushV, addOut, storeCell, hds, FF_STACK_DEPTH]
  · show ((exBRANCH_IF_ZERO vm pc).1).ds.length = 0
    simp [exBRANCH_IF_ZERO, popV, pushV, addOut, storeCell, hds, FF_STACK_DEPTH]
  · show ((exDO vm pc).1).ds.length = 0
    simp [exDO, popV, pushV, addOut, storeCell, hds, FF_STACK_DEPTH]
  · show ((exLOAD vm pc).1).ds.length = 1
    simp [exLOAD, popV, pushV, addOut, storeCell, hds, FF_STACK_DEPTH]
  · show ((exSTORE vm pc).1).ds.length = 0
    simp [exSTORE, popV, pushV, addOut, storeCell, hds, FF_STACK_DEPTH]
  · show ((exLOAD_BYTE vm pc).1).ds.length = 1
    simp [exLOAD_BYTE, popV, pushV, addOut, storeCell, hds, FF_STACK_DEPTH]
  · show ((exSTORE_BYTE vm pc).1).ds.length = 0
    simp [exSTORE_BYTE, popV, pushV, addOut, storeCell, hds, FF_STACK_DEPTH]
  · show ((exROT vm pc).1).ds.length = 0
    simp [exROT, popV, pushV, addOut, storeCell, hds, FF_STACK_DEPTH]
  · show ((ex2DUP vm pc).1).ds.length = 0
    simp [ex2DUP, popV, pushV, addOut, storeCell, hds, FF_STACK_DEPTH]
  · show ((ex2DROP vm pc).1).ds.length = 0
    simp [ex2DROP, popV, pushV, addOut, storeCell, hds, FF_STACK_DEPTH]
  · show ((exNIP vm pc).1).ds.length = 0
    simp [exNIP, popV, pushV, addOut, storeCell, hds, FF_STACK_DEPTH]
  · show ((exTUCK vm pc).1).ds.length = 0
    simp [exTUCK, popV, pushV, addOut, storeCell, hds, FF_STACK_DEPTH]
  · show ((exTO_R vm pc).1).ds.length = 0
    simp only [exTO_R, popV, hds]
    split <;> simp [hds]
  · show ((exMOD vm pc).1).ds.length = 1
    simp [exMOD, popV, pushV, addOut, storeCell, hds, FF_STACK_DEPTH]
  · show ((exNEGATE vm pc).1).ds.length = 1
    simp [exNEGATE, popV, pushV, addOut, storeCell, hds, FF_STACK_DEPTH]
  · show ((exABS vm pc).1).ds.length = 1
    simp [exABS, popV, pushV, addOut, storeCell, hds, FF_STACK_DEPTH]
  · show ((exMIN vm pc).1).ds.length = 1
    simp [exMIN, popV, pushV, addOut, storeCell, hds, FF_STACK_DEPTH]
  · show ((exMAX vm pc).1).ds.length = 1
    simp [exMAX, popV, pushV, addOut, storeCell, hds, FF_STACK_DEPTH]
  · show ((exDIVMOD vm pc).1).ds.length = 2
    simp [exDIVMOD, popV, pushV, addOut, storeCell, hds, FF_STACK_DEPTH]
  · show ((ex1PLUS vm pc).1).ds.length = 0
    simp [ex1PLUS, popV, pushV, addOut, storeCell, hds, FF_STACK_DEPTH]
  · show ((ex1MINUS vm pc).1).ds.length = 0
    simp [ex1MINUS, popV, pushV, addOut, storeCell, hds, FF_STACK_DEPTH]
  · show ((exZERO_EQ vm pc).1).ds.length = 1
    simp [exZERO_EQ, popV, pushV, addOut, storeCell, hds, FF_STACK_DEPTH]
  · show ((exZERO_LT vm pc).1).ds.length = 1
    simp [exZERO_LT, popV, pushV, addOut, storeCell, hds, FF_STACK_DEPTH]
  · show ((exZERO_NE vm pc).1).ds.length = 1
    simp [exZERO_NE, popV, pushV, addOut, storeCell, hds, FF_STACK_DEPTH]
  · show ((exQDUP vm pc).1).ds.length = 0
    simp [exQDUP, popV, pushV, addOut, storeCell, hds, FF_STACK_DEPTH]
  · show ((exPLUSSTORE vm pc).1).ds.length = 0
    simp [exPLUSSTORE, popV, pushV, addOut, storeCell, hds, FF_STACK_DEPTH]
  · show ((exALLOT vm pc).1).ds.length = 0
    simp [exALLOT, popV, pushV, addOut, storeCell, hds, FF_STACK_DEPTH]
  · show ((exEMIT vm pc).1).ds.length = 0
    simp [exEMIT, popV, pushV, addOut, storeCell, hds, FF_STACK_DEPTH]
  · show ((exTYPE vm pc).1).ds.length = 0
    simp [exTYPE, popV, pushV, addOut, storeCell, hds, FF_STACK_DEPTH]

theorem claim_C1_empty_pop_witness :
    ((execOp emptyVm OP_STORE 0).1).ds.length = emptyNet OP_STORE ∧
      ((execOp emptyVm OP_DIVMOD 0).1).ds.length = emptyNet OP_DIVMOD :=
  ⟨claim_C1_empty_pop emptyVm 0 OP_STORE rfl (by decide),
   claim_C1_empty_pop emptyVm 0 OP_DIVMOD rfl (by decide)⟩

/-- Claim C5 — code bug: the claim (every return-stack push, including
those of CALL and DO, is silently dropped at `FF_RET_DEPTH` = 64, so RP
never exceeds 64) states the spec's bounds policy, but only the >R handler
(OP_TO_R) checks `rp < FF_RET_DEPTH`; the OP_CALL and OP_DO cases run
`vm->rs[vm->rp++] = …` unconditionally.  Starting from a return stack
already holding 64 entries, one OP_DO leaves 66 entries and one OP_CALL
leaves 65 — in C these are out-of-bounds writes to `rs[64]`/`rs[65]` —
while OP_TO_R does drop its push as the claim says. -/
theorem claim_C5_rs_overflow :
    ((execOp { emptyVm with rs := List.replicate 64 0 } OP_DO 0).1).rs.length = 66 ∧
      ((execOp { emptyVm with rs := List.replicate 64 0 } OP_CALL 0).1).rs.length = 65 ∧
      ((execOp { emptyVm with rs := List.replicate 64 0, ds := [7] } OP_TO_R 0).1).rs.length
        = 64 ∧
      FF_RET_DEPTH < 66 := by
  decide

/-- Claim C9 — code bug: the compile-time control stack has capacity 32
(`addr_t cstack[32]`) and the spec bounds its depth by 32, but the IF,
ELSE, DO, BEGIN and WHILE handlers all push with
`vm->cstack[vm->csp++] = …` and no capacity check.  Compiling the single
line `: F` followed by 33 `IF`s succeeds and leaves csp = 33 > 32 — in C
the 33rd push writes `cstack[32]`, out of bounds. -/
theorem claim_C9_cstack_overflow :
    (interpret_line emptyVm
        (": F IF IF IF IF IF IF IF IF IF IF IF IF IF IF IF IF IF IF IF IF IF IF IF IF IF IF IF IF IF IF IF IF IF".toList)).isOk
      = true ∧
      (interpret_line emptyVm
        (": F IF IF IF IF IF IF IF IF IF IF IF IF IF IF IF IF IF IF IF IF IF IF IF IF IF IF IF IF IF IF IF IF IF".toList)).vmOf.cstack.length
        = 33 ∧
      32 < 33 := by
  decide

/-- Claim C4 — as stated the claim is half right: `;` does end a
definition by emitting EXIT and clearing the compiling flag, but it is
*not* an error when the compiling flag was false — the handler performs no
check at all.  On a fresh VM the line `;` (compiling = false throughout)
returns success, appends the EXIT byte at HERE and leaves compiling
false, where the claim requires interpret_line to report failure. -/
theorem claim_C4_counterexample :
    (interpret_line emptyVm (";".toList)).isOk = true ∧
      (interpret_line emptyVm (";".toList)).vmOf.compiling = false ∧
      (interpret_line emptyVm (";".toList)).vmOf.here = 1 ∧
      dictByte (interpret_line emptyVm (";".toList)).vmOf 0 = OP_EXIT := by
  decide

/-- Claim C4 (amended) — interpreting the token `;` unconditionally ends
a definition: the line loop emits EXIT, clears the compiling flag
(`endDef`) and continues with the rest of the line, whatever the state —
in particular a `;` with compiling already false is not an error; it
still appends an EXIT byte and the line goes on. -/
theorem claim_C4_semicolon (fuel efuel : Nat) (vm : forth_t) (p r : List Char)
    (hnt : next_token p = some (";", r)) :
    interpLoop (fuel + 1) efuel vm p = interpLoop fuel efuel (endDef vm) r := by
  simp only [interpLoop, hnt]
  simp

theorem claim_C4_semicolon_witness :
    interpLoop (4 + 1) 1000 emptyVm (";".toList)
      = interpLoop 4 1000 (endDef emptyVm) [] :=
  claim_C4_semicolon 4 1000 emptyVm (";".toList) [] (by decide)

/-- Claim C10 — confirmed: the BYE/QUIT/EXIT handler sits ahead of every
mode-dependent branch of the line loop and calls `exit(0)` outright
(modelled by `Res.exited`, which carries the state unchanged at the
moment the process terminates with status 0).  So in immediate *and* in
compilation mode, reaching any of the three tokens terminates the
process; in particular EXIT is never compiled into a definition body —
nothing is emitted, the state is left exactly as it was.  The second
conjunct instantiates this through `interpret_line` for the line `EXIT`
from an arbitrary state. -/
theorem claim_C10_bye_quit_exit :
    (∀ (fuel efuel : Nat) (vm : forth_t) (p r : List Char) (t : String),
        next_token p = some (t, r) → t = "BYE" ∨ t = "QUIT" ∨ t = "EXIT" →
        interpLoop (fuel + 1) efuel vm p = .exited vm) ∧
      (∀ vm : forth_t, interpret_line vm ("EXIT".toList) = .exited vm) := by
  have h1 : ∀ (fuel efuel : Nat) (vm : forth_t) (p r : List Char) (t : String),
      next_token p = some (t, r) → t = "BYE" ∨ t = "QUIT" ∨ t = "EXIT" →
      interpLoop (fuel + 1) efuel vm p = .exited vm := by
    intro fuel efuel vm p r t hnt ht
    simp only [interpLoop, hnt]
    rcases ht with rfl | rfl | rfl <;> simp
  refine ⟨h1, fun vm => ?_⟩
  show interpLoop (3 + 1) 1000 vm (stripComment ("EXIT".toList)) = .exited vm
  rw [show stripComment ("EXIT".toList) = "EXIT".toList from by decide]
  exact h1 3 1000 vm _ [] "EXIT" (by decide) (Or.inr (Or.inr rfl))

/-- A cell already inside the `int32_t` range is unchanged by the
wrap-around normalisation. -/
theorem wrap32_eq_self (z : Int) (h1 : -2 ^ 31 ≤ z) (h2 : z < 2 ^ 31) :
    wrap32 z = z := by
  unfold wrap32
  rw [Int.emod_eq_of_lt (by omega) (by omega)]
  omega

/-- Claim C6 — confirmed.  (1) OP_LOOP increments the index
(`rs[rp-1]`) in place and jumps back to its operand target exactly when
the incremented index is below the limit (`rs[rp-2]`); otherwise it
discards both loop-frame entries and falls through.  (2) OP_DO consumes
(limit, index) from the data stack, index on top, and pushes limit then
index onto the return stack.  (3) Hence, when the loop frame reaches
OP_LOOP with index = limit (no body interference), the frame is popped
and control falls through — the body has run exactly once (stated for
non-overflowing limits; the increment past `INT32_MAX` is undefined in
the source).  (4) End to end: `: C 0 5 5 DO 1+ LOOP ; C` runs the body
exactly once, leaving 1 on the stack, and the line succeeds. -/
theorem claim_C6_do_loop :
    (∀ (vm : forth_t) (pc : Nat) (i l : Int) (rest : List Int), vm.rs = i :: l :: rest →
        execOp vm OP_LOOP pc =
          if wrap32 (i + 1) < l then
            ({ vm with rs := wrap32 (i + 1) :: l :: rest }, some (read_addr vm pc).1)
          else ({ vm with rs := rest }, some (read_addr vm pc).2)) ∧
      (∀ (vm : forth_t) (pc : Nat) (i l : Int) (t : List Int), vm.ds = i :: l :: t →
        execOp vm OP_DO pc = ({ vm with ds := t, rs := i :: l :: vm.rs }, some pc)) ∧
      (∀ (vm : forth_t) (pc : Nat) (l : Int) (rest : List Int), vm.rs = l :: l :: rest →
        -2 ^ 31 ≤ l → l < 2 ^ 31 - 1 →
        execOp vm OP_LOOP pc = ({ vm with rs := rest }, some (read_addr vm pc).2)) ∧
      ((interpret_line init_forth (": C 0 5 5 DO 1+ LOOP ; C".toList)).vmOf.ds = [1] ∧
        (interpret_line init_forth (": C 0 5 5 DO 1+ LOOP ; C".toList)).isOk = true) := by
  have hloop : ∀ (vm : forth_t) (pc : Nat) (i l : Int) (rest : List Int),
      vm.rs = i :: l :: rest →
      execOp vm OP_LOOP pc =
        if wrap32 (i + 1) < l then
          ({ vm with rs := wrap32 (i + 1) :: l :: rest }, some (read_addr vm pc).1)
        else ({ vm with rs := rest }, some (read_addr vm pc).2) := by
    intro vm pc i l rest h
    show exLOOP vm pc = _
    simp only [exLOOP, h]
    simp
  refine ⟨hloop, ?_, ?_, by decide, by decide⟩
  · intro vm pc i l t h
    show exDO vm pc = _
    simp [exDO, popV, h]
  · intro vm pc l rest h hlo hhi
    rw [hloop vm pc l l rest h, wrap32_eq_self (l + 1) (by omega) (by omega),
      if_neg (by omega)]

theorem claim_C6_witness :
    (execOp { emptyVm with rs := [5, 9] } OP_LOOP 0).1.rs = [6, 9] ∧
      (execOp { emptyVm with ds := [4, 7] } OP_DO 0).1.rs = [4, 7] ∧
      (execOp { emptyVm with rs := [5, 5] } OP_LOOP 0).1.rs = [] := by
  refine ⟨?_, ?_, ?_⟩
  · rw [claim_C6_do_loop.1 { emptyVm with rs := [5, 9] } 0 5 9 [] rfl]
    decide
  · rw [claim_C6_do_loop.2.1 { emptyVm with ds := [4, 7] } 0 4 7 [] rfl]
    decide
  · rw [claim_C6_do_loop.2.2.1 { emptyVm with rs := [5, 5] } 0 5 [] rfl (by decide)
      (by decide)]

/-- Claim C7 — confirmed.  (1) Word lookup scans the table
newest-to-oldest, so after appending a new entry, lookup returns that
entry whenever the name matches — a redefinition shadows all earlier
entries.  (2) Registering a word (`add_word`) leaves the dictionary and
HERE untouched, and (3) emitting a byte never alters dictionary bytes
below HERE — so CALL instructions already compiled keep the original
word's address when the word is later redefined.  (4) End to end: after
`: F 1 ;`, `: G F ;`, `: F 2 ;`, running `G` still pushes 1 (the call
compiled into G was bound to the first F) while running `F` now pushes 2
(lookup returns the newest definition). -/
theorem claim_C7_lookup_shadowing :
    (∀ (vm : forth_t) (w : Word) (nm : String),
        find_word { vm with words := vm.words ++ [w] } nm
          = if w.name = nm then some w else find_word vm nm) ∧
      (∀ (vm : forth_t) (nm : String) (a : Nat),
        (add_word vm nm a).dict = vm.dict ∧ (add_word vm nm a).here = vm.here) ∧
      (∀ (vm : forth_t) (b i : Nat), i < vm.here →
        dictByte (emit_byte vm b) i = dictByte vm i) ∧
      ((interpret_line
          ((interpret_line
            ((interpret_line
              ((interpret_line init_forth (": F 1 ;".toList)).vmOf)
              (": G F ;".toList)).vmOf)
            (": F 2 ;".toList)).vmOf)
          ("G".toList)).vmOf.ds = [1] ∧
        (interpret_line
          ((interpret_line
            ((interpret_line
              ((interpret_line init_forth (": F 1 ;".toList)).vmOf)
              (": G F ;".toList)).vmOf)
            (": F 2 ;".toList)).vmOf)
          ("F".toList)).vmOf.ds = [2]) := by
  refine ⟨?_, ?_, ?_, by decide, by decide⟩
  · intro vm w nm
    simp [find_word, find_word.go]
  · intro vm nm a
    constructor <;> (unfold add_word; split <;> rfl)
  · intro vm b i hi
    unfold emit_byte dictByte
    split
    · rfl
    · simp [List.getD, List.getElem?_set_ne (by omega : vm.here ≠ i)]

theorem claim_C7_witness :
    find_word { emptyVm with words := emptyVm.words ++ [⟨"F", 9, 0⟩] } "F"
        = some ⟨"F", 9, 0⟩ ∧
      (add_word emptyVm "G" 5).dict = emptyVm.dict ∧
      dictByte (emit_byte (emit_byte emptyVm 3) 0) 0
        = dictByte (emit_byte emptyVm 3) 0 := by
  refine ⟨?_, (claim_C7_lookup_shadowing.2.1 emptyVm "G" 5).1,
    claim_C7_lookup_shadowing.2.2.1 (emit_byte emptyVm 3) 0 0 (by decide)⟩
  rw [claim_C7_lookup_shadowing.1 emptyVm ⟨"F", 9, 0⟩ "F"]
  decide

theorem claim_C10_witness :
    interpLoop (0 + 1) 7 { emptyVm with compiling := true } ("EXIT".toList)
      = .exited { emptyVm with compiling := true } ∧
      interpret_line { emptyVm with compiling := true } ("EXIT".toList)
        = .exited { emptyVm with compiling := true } :=
  ⟨claim_C10_bye_quit_exit.1 0 7 _ _ [] "EXIT" (by decide) (by decide),
   claim_C10_bye_quit_exit.2 _⟩

/-! ### Control-stack preservation

The executor never touches the compile-time control stack: every opcode
helper, hence `execOp`, `executeN`, `execute` and `interpret_token`,
leaves `cstack` unchanged.  These lemmas back claim C3. -/

theorem cstack_pushV (vm : forth_t) (v : Int) : (pushV vm v).cstack = vm.cstack := by
  unfold pushV
  split <;> rfl

theorem cstack_popV (vm : forth_t) : ((popV vm).2).cstack = vm.cstack := by
  unfold popV
  split <;> rfl

theorem cstack_exEXIT (vm : forth_t) (pc : Nat) : ((exEXIT vm pc).1).cstack = vm.cstack := by
  unfold exEXIT
  try dsimp only [pushV, popV, addOut, storeCell]
  repeat' split
  all_goals rfl

theorem cstack_exLIT (vm : forth_t) (pc : Nat) : ((exLIT vm pc).1).cstack = vm.cstack := by
  unfold exLIT
  try dsimp only [pushV, popV, addOut, storeCell]
  repeat' split
  all_goals rfl

theorem cstack_exCALL (vm : forth_t) (pc : Nat) : ((exCALL vm pc).1).cstack = vm.cstack := by
  unfold exCALL
  try dsimp only [pushV, popV, addOut, storeCell]
  repeat' split
  all_goals rfl

theorem cstack_exADD (vm : forth_t) (pc : Nat) : ((exADD vm pc).1).cstack = vm.cstack := by
  unfold exADD
  try dsimp only [pushV, popV, addOut, storeCell]
  repeat' split
  all_goals rfl

theorem cstack_exSUB (vm : forth_t) (pc : Nat) : ((exSUB vm pc).1).cstack = vm.cstack := by
  unfold exSUB
  try dsimp only [pushV, popV, addOut, storeCell]
  repeat' split
  all_goals rfl

theorem cstack_exMUL (vm : forth_t) (pc : Nat) : ((exMUL vm pc).1).cstack = vm.cstack := by
  unfold exMUL
  try dsimp only [pushV, popV, addOut, storeCell]
  repeat' split
  all_goals rfl

theorem cstack_exDIV (vm : forth_t) (pc : Nat) : ((exDIV vm pc).1).cstack = vm.cstack := by
  unfold exDIV
  try dsimp only [pushV, popV, addOut, storeCell]
  repeat' split
  all_goals rfl

theorem cstack_exDUP (vm : forth_t) (pc : Nat) : ((exDUP vm pc).1).cstack = vm.cstack := by
  unfold exDUP
  try dsimp only [pushV, popV, addOut, storeCell]
  repeat' split
  all_goals rfl

theorem cstack_exDROP (vm : forth_t) (pc : Nat) : ((exDROP vm pc).1).cstack = vm.cstack := by
  unfold exDROP
  try dsimp only [pushV, popV, addOut, storeCell]
  repeat' split
  all_goals rfl

theorem cstack_exSWAP (vm : forth_t) (pc : Nat) : ((exSWAP vm pc).1).cstack = vm.cstack := by
  unfold exSWAP
  try dsimp only [pushV, popV, addOut, storeCell]
  repeat' split
  all_goals rfl

theorem cstack_exOVER (vm : forth_t) (pc : Nat) : ((exOVER vm pc).1).cstack = vm.cstack := by
  unfold exOVER
  try dsimp only [pushV, popV, addOut, storeCell]
  repeat' split
  all_goals rfl

theorem cstack_exDOT (vm : forth_t) (pc : Nat) : ((exDOT vm pc).1).cstack = vm.cstack := by
  unfold exDOT
  try dsimp only [pushV, popV, addOut, storeCell]
  repeat' split
  all_goals rfl

theorem cstack_exAND (vm : forth_t) (pc : Nat) : ((exAND vm pc).1).cstack = vm.cstack := by
  unfold exAND
  try dsimp only [pushV, popV, addOut, storeCell]
  repeat' split
  all_goals rfl

theorem cstack_exOR (vm : forth_t) (pc : Nat) : ((exOR vm pc).1).cstack = vm.cstack := by
  unfold exOR
  try dsimp only [pushV, popV, addOut, storeCell]
  repeat' split
  all_goals rfl

theorem cstack_exXOR (vm : forth_t) (pc : Nat) : ((exXOR vm pc).1).cstack = vm.cstack := by
  unfold exXOR
  try dsimp only [pushV, popV, addOut, storeCell]
  repeat' split
  all_goals rfl

theorem cstack_exNOT (vm : forth_t) (pc : Nat) : ((exNOT vm pc).1).cstack = vm.cstack := by
  unfold exNOT
  try dsimp only [pushV, popV, addOut, storeCell]
  repeat' split
  all_goals rfl

theorem cstack_exLT (vm : forth_t) (pc : Nat) : ((exLT vm pc).1).cstack = vm.cstack := by
  unfold exLT
  try dsimp only [pushV, popV, addOut, storeCell]
  repeat' split
  all_goals rfl

theorem cstack_exGT (vm : forth_t) (pc : Nat) : ((exGT vm pc).1).cstack = vm.cstack := by
  unfold exGT
  try dsimp only [pushV, popV, addOut, storeCell]
  repeat' split
  all_goals rfl

theorem cstack_exEQ (vm : forth_t) (pc : Nat) : ((exEQ vm pc).1).cstack = vm.cstack := by
  unfold exEQ
  try dsimp only [pushV, popV, addOut, storeCell]
  repeat' split
  all_goals rfl

theorem cstack_exLE (vm : forth_t) (pc : Nat) : ((exLE vm pc).1).cstack = vm.cstack := by
  unfold exLE
  try dsimp only [pushV, popV, addOut, storeCell]
  repeat' split
  all_goals rfl

theorem cstack_exGE (vm : forth_t) (pc : Nat) : ((exGE vm pc).1).cstack = vm.cstack := by
  unfold exGE
  try dsimp only [pushV, popV, addOut, storeCell]
  repeat' split
  all_goals rfl

theorem cstack_exNE (vm : forth_t) (pc : Nat) : ((exNE vm pc).1).cstack = vm.cstack := by
  unfold exNE
  try dsimp only [pushV, popV, addOut, storeCell]
  repeat' split
  all_goals rfl

theorem cstack_exBRANCH (vm : forth_t) (pc : Nat) : ((exBRANCH vm pc).1).cstack = vm.cstack := by
  unfold exBRANCH
  try dsimp only [pushV, popV, addOut, storeCell]
  repeat' split
  all_goals rfl

theorem cstack_exBRANCH_IF_ZERO (vm : forth_t) (pc : Nat) : ((exBRANCH_IF_ZERO vm pc).1).cstack = vm.cstack := by
  unfold exBRANCH_IF_ZERO
  try dsimp only [pushV, popV, addOut, storeCell]
  repeat' split
  all_goals rfl

theorem cstack_exDO (vm : forth_t) (pc : Nat) : ((exDO vm pc).1).cstack = vm.cstack := by
  unfold exDO
  try dsimp only [pushV, popV, addOut, storeCell]
  repeat' split
  all_goals rfl

theorem cstack_exLOOP (vm : forth_t) (pc : Nat) : ((exLOOP vm pc).1).cstack = vm.cstack := by
  unfold exLOOP
  try dsimp only [pushV, popV, addOut, storeCell]
  repeat' split
  all_goals rfl

theorem cstack_exI (vm : forth_t) (pc : Nat) : ((exI vm pc).1).cstack = vm.cstack := by
  unfold exI
  try dsimp only [pushV, popV, addOut, storeCell]
  repeat' split
  all_goals rfl

theorem cstack_exLOAD (vm : forth_t) (pc : Nat) : ((exLOAD vm pc).1).cstack = vm.cstack := by
  unfold exLOAD
  try dsimp only [pushV, popV, addOut, storeCell]
  repeat' split
  all_goals rfl

theorem cstack_exSTORE (vm : forth_t) (pc : Nat) : ((exSTORE vm pc).1).cstack = vm.cstack := by
  unfold exSTORE
  try dsimp only [pushV, popV, addOut, storeCell]
  repeat' split
  all_goals rfl

theorem cstack_exLOAD_BYTE (vm : forth_t) (pc : Nat) : ((exLOAD_BYTE vm pc).1).cstack = vm.cstack := by
  unfold exLOAD_BYTE
  try dsimp only [pushV, popV, addOut, storeCell]
  repeat' split
  all_goals rfl

theorem cstack_exSTORE_BYTE (vm : forth_t) (pc : Nat) : ((exSTORE_BYTE vm pc).1).cstack = vm.cstack := by
  unfold exSTORE_BYTE
  try dsimp only [pushV, popV, addOut, storeCell]
  repeat' split
  all_goals rfl

theorem cstack_exROT (vm : forth_t) (pc : Nat) : ((exROT vm pc).1).cstack = vm.cstack := by
  unfold exROT
  try dsimp only [pushV, popV, addOut, storeCell]
  repeat' split
  all_goals rfl

theorem cstack_ex2DUP (vm : forth_t) (pc : Nat) : ((ex2DUP vm pc).1).cstack = vm.cstack := by
  unfold ex2DUP
  try dsimp only [pushV, popV, addOut, storeCell]
  repeat' split
  all_goals rfl

theorem cstack_ex2DROP (vm : forth_t) (pc : Nat) : ((ex2DROP vm pc).1).cstack = vm.cstack := by
  unfold ex2DROP
  try dsimp only [pushV, popV, addOut, storeCell]
  repeat' split
  all_goals rfl

theorem cstack_exNIP (vm : forth_t) (pc : Nat) : ((exNIP vm pc).1).cstack = vm.cstack := by
  unfold exNIP
  try dsimp only [pushV, popV, addOut, storeCell]
  repeat' split
  all_goals rfl

theorem cstack_exTUCK (vm : forth_t) (pc : Nat) : ((exTUCK vm pc).1).cstack = vm.cstack := by
  unfold exTUCK
  try dsimp only [pushV, popV, addOut, storeCell]
  repeat' split
  all_goals rfl

theorem cstack_exTO_R (vm : forth_t) (pc : Nat) : ((exTO_R vm pc).1).cstack = vm.cstack := by
  unfold exTO_R
  try dsimp only [pushV, popV, addOut, storeCell]
  repeat' split
  all_goals rfl

theorem cstack_exR_FROM (vm : forth_t) (pc : Nat) : ((exR_FROM vm pc).1).cstack = vm.cstack := by
  unfold exR_FROM
  try dsimp only [pushV, popV, addOut, storeCell]
  repeat' split
  all_goals rfl

theorem cstack_exR_FETCH (vm : forth_t) (pc : Nat) : ((exR_FETCH vm pc).1).cstack = vm.cstack := by
  unfold exR_FETCH
  try dsimp only [pushV, popV, addOut, storeCell]
  repeat' split
  all_goals rfl

theorem cstack_exMOD (vm : forth_t) (pc : Nat) : ((exMOD vm pc).1).cstack = vm.cstack := by
  unfold exMOD
  try dsimp only [pushV, popV, addOut, storeCell]
  repeat' split
  all_goals rfl

theorem cstack_exNEGATE (vm : forth_t) (pc : Nat) : ((exNEGATE vm pc).1).cstack = vm.cstack := by
  unfold exNEGATE
  try dsimp only [pushV, popV, addOut, storeCell]
  repeat' split
  all_goals rfl

theorem cstack_exABS (vm : forth_t) (pc : Nat) : ((exABS vm pc).1).cstack = vm.cstack := by
  unfold exABS
  try dsimp only [pushV, popV, addOut, storeCell]
  repeat' split
  all_goals rfl

theorem cstack_exMIN (vm : forth_t) (pc : Nat) : ((exMIN vm pc).1).cstack = vm.cstack := by
  unfold exMIN
  try dsimp only [pushV, popV, addOut, storeCell]
  repeat' split
  all_goals rfl

theorem cstack_exMAX (vm : forth_t) (pc : Nat) : ((exMAX vm pc).1).cstack = vm.cstack := by
  unfold exMAX
  try dsimp only [pushV, popV, addOut, storeCell]
  repeat' split
  all_goals rfl

theorem cstack_exDIVMOD (vm : forth_t) (pc : Nat) : ((exDIVMOD vm pc).1).cstack = vm.cstack := by
  unfold exDIVMOD
  try dsimp only [pushV, popV, addOut, storeCell]
  repeat' split
  all_goals rfl

theorem cstack_ex1PLUS (vm : forth_t) (pc : Nat) : ((ex1PLUS vm pc).1).cstack = vm.cstack := by
  unfold ex1PLUS
  try dsimp only [pushV, popV, addOut, storeCell]
  repeat' split
  all_goals rfl

theorem cstack_ex1MINUS (vm : forth_t) (pc : Nat) : ((ex1MINUS vm pc).1).cstack = vm.cstack := by
  unfold ex1MINUS
  try dsimp only [pushV, popV, addOut, storeCell]
  repeat' split
  all_goals rfl

theorem cstack_exZERO_EQ (vm : forth_t) (pc : Nat) : ((exZERO_EQ vm pc).1).cstack = vm.cstack := by
  unfold exZERO_EQ
  try dsimp only [pushV, popV, addOut, storeCell]
  repeat' split
  all_goals rfl

theorem cstack_exZERO_LT (vm : forth_t) (pc : Nat) : ((exZERO_LT vm pc).1).cstack = vm.cstack := by
  unfold exZERO_LT
  try dsimp only [pushV, popV, addOut, storeCell]
  repeat' split
  all_goals rfl

theorem cstack_exZERO_NE (vm : forth_t) (pc : Nat) : ((exZERO_NE vm pc).1).cstack = vm.cstack := by
  unfold exZERO_NE
  try dsimp only [pushV, popV, addOut, storeCell]
  repeat' split
  all_goals rfl

theorem cstack_exQDUP (vm : forth_t) (pc : Nat) : ((exQDUP vm pc).1).cstack = vm.cstack := by
  unfold exQDUP
  try dsimp only [pushV, popV, addOut, storeCell]
  repeat' split
  all_goals rfl

theorem cstack_exPLUSSTORE (vm : forth_t) (pc : Nat) : ((exPLUSSTORE vm pc).1).cstack = vm.cstack := by
  unfold exPLUSSTORE
  try dsimp only [pushV, popV, addOut, storeCell]
  repeat' split
  all_goals rfl

theorem cstack_exALLOT (vm : forth_t) (pc : Nat) : ((exALLOT vm pc).1).cstack = vm.cstack := by
  unfold exALLOT
  try dsimp only [pushV, popV, addOut, storeCell]
  repeat' split
  all_goals rfl

theorem cstack_exEMIT (vm : forth_t) (pc : Nat) : ((exEMIT vm pc).1).cstack = vm.cstack := by
  unfold exEMIT
  try dsimp only [pushV, popV, addOut, storeCell]
  repeat' split
  all_goals rfl

theorem cstack_exKEY (vm : forth_t) (pc : Nat) : ((exKEY vm pc).1).cstack = vm.cstack := by
  unfold exKEY
  try dsimp only [pushV, popV, addOut, storeCell]
  repeat' split
  all_goals rfl

theorem cstack_exCR (vm : forth_t) (pc : Nat) : ((exCR vm pc).1).cstack = vm.cstack := by
  unfold exCR
  try dsimp only [pushV, popV, addOut, storeCell]
  repeat' split
  all_goals rfl

theorem cstack_exTYPE (vm : forth_t) (pc : Nat) : ((exTYPE vm pc).1).cstack = vm.cstack := by
  unfold exTYPE
  try dsimp only [pushV, popV, addOut, storeCell]
  repeat' split
  all_goals rfl

theorem cstack_exHERE (vm : forth_t) (pc : Nat) : ((exHERE vm pc).1).cstack = vm.cstack := by
  unfold exHERE
  try dsimp only [pushV, popV, addOut, storeCell]
  repeat' split
  all_goals rfl

theorem cstack_exDOT_S (vm : forth_t) (pc : Nat) : ((exDOT_S vm pc).1).cstack = vm.cstack := by
  unfold exDOT_S
  try dsimp only [pushV, popV, addOut, storeCell]
  repeat' split
  all_goals rfl

theorem cstack_exDEPTH (vm : forth_t) (pc : Nat) : ((exDEPTH vm pc).1).cstack = vm.cstack := by
  unfold exDEPTH
  try dsimp only [pushV, popV, addOut, storeCell]
  repeat' split
  all_goals rfl

theorem cstack_exCLEAR (vm : forth_t) (pc : Nat) : ((exCLEAR vm pc).1).cstack = vm.cstack := by
  unfold exCLEAR
  try dsimp only [pushV, popV, addOut, storeCell]
  repeat' split
  all_goals rfl

theorem cstack_exWORDS (vm : forth_t) (pc : Nat) : ((exWORDS vm pc).1).cstack = vm.cstack := by
  unfold exWORDS
  try dsimp only [pushV, popV, addOut, storeCell]
  repeat' split
  all_goals rfl

theorem cstack_execOp (vm : forth_t) (op pc : Nat) :
    ((execOp vm op pc).1).cstack = vm.cstack := by
  unfold execOp
  split <;>
    simp [cstack_exEXIT, cstack_exLIT, cstack_exCALL, cstack_exADD, cstack_exSUB,
      cstack_exMUL, cstack_exDIV, cstack_exDUP, cstack_exDROP, cstack_exSWAP,
      cstack_exOVER, cstack_exDOT, cstack_exAND, cstack_exOR, cstack_exXOR,
      cstack_exNOT, cstack_exLT, cstack_exGT, cstack_exEQ, cstack_exLE,
      cstack_exGE, cstack_exNE, cstack_exBRANCH, cstack_exBRANCH_IF_ZERO,
      cstack_exDO, cstack_exLOOP, cstack_exI, cstack_exLOAD, cstack_exSTORE,
      cstack_exLOAD_BYTE, cstack_exSTORE_BYTE, cstack_exROT, cstack_ex2DUP,
      cstack_ex2DROP, cstack_exNIP, cstack_exTUCK, cstack_exTO_R,
      cstack_exR_FROM, cstack_exR_FETCH, cstack_exMOD, cstack_exNEGATE,
      cstack_exABS, cstack_exMIN, cstack_exMAX, cstack_exDIVMOD,
      cstack_ex1PLUS, cstack_ex1MINUS, cstack_exZERO_EQ, cstack_exZERO_LT,
      cstack_exZERO_NE, cstack_exQDUP, cstack_exPLUSSTORE, cstack_exALLOT,
      cstack_exEMIT, cstack_exKEY, cstack_exCR, cstack_exTYPE, cstack_exHERE,
      cstack_exDOT_S, cstack_exDEPTH, cstack_exCLEAR, cstack_exWORDS]

theorem cstack_executeN (fuel : Nat) (vm : forth_t) (pc : Nat) :
    (executeN fuel vm pc).cstack = vm.cstack := by
  induction fuel generalizing vm pc with
  | zero => rfl
  | succ fuel ih =>
    show (match execStep vm pc with
      | (vm', none) => vm'
      | (vm', some pc') => executeN fuel vm' pc').cstack = vm.cstack
    have hs : ((execStep vm pc).1).cstack = vm.cstack := cstack_execOp vm _ _
    rcases h : execStep vm pc with ⟨vm', _ | pc'⟩
    · rw [h] at hs
      exact hs
    · rw [h] at hs
      rw [ih vm' pc', hs]

theorem cstack_execute (efuel : Nat) (vm : forth_t) (a : Nat) :
    (execute efuel vm a).cstack = vm.cstack :=
  cstack_executeN efuel vm _

theorem cstack_emit_byte (vm : forth_t) (b : Nat) :
    (emit_byte vm b).cstack = vm.cstack := by
  unfold emit_byte
  split <;> rfl

theorem cstack_emit_cell (vm : forth_t) (c : Int) :
    (emit_cell vm c).cstack = vm.cstack := by
  unfold emit_cell
  simp [cstack_emit_byte]

theorem cstack_emit_addr (vm : forth_t) (a : Nat) :
    (emit_addr vm a).cstack = vm.cstack := by
  unfold emit_addr
  simp [cstack_emit_byte]

theorem cstack_add_word (vm : forth_t) (nm : String) (a : Nat) :
    (add_word vm nm a).cstack = vm.cstack := by
  unfold add_word
  split <;> rfl

theorem cstack_startDef (vm : forth_t) (nm : String) :
    (startDef vm nm).cstack = vm.cstack := by
  unfold startDef
  rw [show ({ add_word vm nm vm.here with compiling := true } : forth_t).cstack
      = (add_word vm nm vm.here).cstack from rfl]
  exact cstack_add_word vm nm vm.here

theorem cstack_endDef (vm : forth_t) : (endDef vm).cstack = vm.cstack := by
  unfold endDef
  rw [show ({ emit_byte vm OP_EXIT with compiling := false } : forth_t).cstack
      = (emit_byte vm OP_EXIT).cstack from rfl]
  exact cstack_emit_byte vm OP_EXIT

theorem cstack_mkConstant (vm : forth_t) (nm : String) :
    (mkConstant vm nm).cstack = vm.cstack := by
  unfold mkConstant
  simp [cstack_add_word, cstack_emit_byte, cstack_emit_cell, cstack_popV]

theorem cstack_mkVariable (vm : forth_t) (nm : String) :
    (mkVariable vm nm).cstack = vm.cstack := by
  unfold mkVariable
  simp [cstack_add_word, cstack_emit_byte, cstack_emit_cell]

theorem cstack_loadbApply (vm vm2 : forth_t) (f : ImageFile)
    (h : loadbApply vm f = some vm2) : vm2.cstack = vm.cstack := by
  unfold loadbApply at h
  repeat' split at h
  all_goals first
    | exact Option.noConfusion h
    | (injection h with h2; rw [← h2])

theorem cstack_foldl_emit_byte (cs : List Char) (vm : forth_t) :
    (cs.foldl (fun v c => emit_byte v (c.toNat % 256)) vm).cstack = vm.cstack := by
  induction cs generalizing vm with
  | nil => rfl
  | cons c cs ih => rw [List.foldl_cons, ih, cstack_emit_byte]

theorem cstack_patch_addr (vm : forth_t) (l t : Nat) :
    (patch_addr vm l t).cstack = vm.cstack := rfl

theorem cstack_interpret_token (efuel : Nat) (vm : forth_t) (t : String) :
    ((interpret_token efuel vm t).1).cstack = vm.cstack := by
  unfold interpret_token
  repeat' split
  all_goals
    simp [cstack_pushV, cstack_emit_byte, cstack_emit_cell, cstack_emit_addr,
      cstack_execute]

/-! ### Token-consumption lemmas for `procTokens` (claim C3) -/

theorem procTokens_head (fuel : Nat) (p : List Char) (t : String) (r : List Char)
    (hnt : next_token p = some (t, r)) : t ∈ procTokens (fuel + 1) p := by
  simp only [procTokens, hnt]
  repeat' split
  all_goals simp

theorem procTokens_paren (fuel : Nat) (p r : List Char)
    (hnt : next_token p = some ("(", r)) :
    procTokens (fuel + 1) p = "(" :: procTokens fuel (skipParen r) := by
  simp [procTokens, hnt]

theorem procTokens_plain (fuel : Nat) (p : List Char) (t : String) (r : List Char)
    (hnt : next_token p = some (t, r)) (h1 : t ≠ "(") (h2 : t ≠ ".\"")
    (h3 : t ∉ nameConsumers) :
    procTokens (fuel + 1) p = t :: procTokens fuel r := by
  simp only [procTokens, hnt, if_neg h1, if_neg h2, if_neg h3]

theorem procTokens_name (fuel : Nat) (p : List Char) (t : String) (r : List Char)
    (nm : String) (r2 : List Char)
    (hnt : next_token p = some (t, r)) (h1 : t ≠ "(") (h2 : t ≠ ".\"")
    (h3 : t ∈ nameConsumers) (hnr : next_token r = some (nm, r2)) :
    procTokens (fuel + 1) p = t :: nm :: procTokens fuel r2 := by
  simp only [procTokens, hnt, if_neg h1, if_neg h2, if_pos h3, hnr]

theorem procTokens_string (fuel : Nat) (p r : List Char) (c : Char) (r2 : List Char)
    (hnt : next_token p = some (".\"", r))
    (hdw : (r.dropWhile isSpaceC).dropWhile (fun ch => !(ch == '"')) = c :: r2) :
    procTokens (fuel + 1) p = ".\"" :: procTokens fuel r2 := by
  simp [procTokens, hnt, hdw]

/-- Claim C3 (amended) — after a top-level `interpret_line` that returns
success, the compile-time control stack is empty *provided* the line,
processed from an empty control stack, contains none of the
control-opening tokens IF, DO, BEGIN and no LOAD directive: every other
handler either leaves the control stack untouched, or (THEN, ELSE, LOOP,
WHILE, REPEAT) fails on an empty control stack, and the executor never
touches it.  Without the proviso the claim is false — see the
counterexample, where a successful line ends compilation with csp = 1,
because the `;` handler does not check the control stack. -/
theorem claim_C3_cstack_empty :
    ∀ (fuel efuel : Nat) (vm vm' : forth_t) (p : List Char),
      vm.cstack = [] →
      (∀ t ∈ procTokens fuel p, t ≠ "IF" ∧ t ≠ "DO" ∧ t ≠ "BEGIN" ∧ t ≠ "LOAD") →
      interpLoop fuel efuel vm p = .ok vm' →
      vm'.cstack = [] := by
  intro fuel
  induction fuel with
  | zero =>
    intro efuel vm vm' p _ _ hok
    simp only [interpLoop] at hok
    exact Res.noConfusion hok
  | succ fuel ih =>
    intro efuel vm vm' p hcs hf hok
    simp only [interpLoop] at hok
    cases hnt : next_token p with
    | none =>
      simp only [hnt] at hok
      injection hok with h
      rw [← h]
      exact hcs
    | some tr =>
      obtain ⟨t, r⟩ := tr
      simp only [hnt] at hok
      by_cases h1 : t = "("
      · subst h1
        rw [if_pos rfl] at hok
        have hpt := procTokens_paren fuel p r hnt
        exact ih efuel vm vm' _ hcs
          (fun t' ht' => hf t' (by rw [hpt]; exact List.mem_cons_of_mem _ ht')) hok
      rw [if_neg h1] at hok
      by_cases h2 : t = ":"
      · subst h2
        rw [if_pos rfl] at hok
        cases hnr : next_token r with
        | none =>
          simp only [hnr] at hok
          exact Res.noConfusion hok
        | some nmr2 =>
          obtain ⟨nm, r2⟩ := nmr2
          simp only [hnr] at hok
          have hpt := procTokens_name fuel p ":" r nm r2 hnt (by decide) (by decide)
            (by decide) hnr
          refine ih efuel _ vm' r2 (by rw [cstack_startDef]; exact hcs)
            (fun t' ht' => hf t' ?_) hok
          rw [hpt]
          exact List.mem_cons_of_mem _ (List.mem_cons_of_mem _ ht')
      rw [if_neg h2] at hok
      by_cases h3 : t = ";"
      · subst h3
        rw [if_pos rfl] at hok
        have hpt := procTokens_plain fuel p ";" r hnt (by decide) (by decide) (by decide)
        exact ih efuel _ vm' r (by rw [cstack_endDef]; exact hcs)
          (fun t' ht' => hf t' (by rw [hpt]; exact List.mem_cons_of_mem _ ht')) hok
      rw [if_neg h3] at hok
      by_cases h4 : t = "BYE" ∨ t = "QUIT" ∨ t = "EXIT"
      · rw [if_pos h4] at hok
        exact Res.noConfusion hok
      rw [if_neg h4] at hok
      by_cases h5 : t = "CONSTANT"
      · subst h5
        rw [if_pos rfl] at hok
        cases hnr : next_token r with
        | none =>
          simp only [hnr] at hok
          exact Res.noConfusion hok
        | some nmr2 =>
          obtain ⟨nm, r2⟩ := nmr2
          simp only [hnr] at hok
          by_cases hsp : vm.ds.length < 1
          · rw [if_pos hsp] at hok
            exact Res.noConfusion hok
          rw [if_neg hsp] at hok
          have hpt := procTokens_name fuel p "CONSTANT" r nm r2 hnt (by decide)
            (by decide) (by decide) hnr
          refine ih efuel _ vm' r2 (by rw [cstack_mkConstant]; exact hcs)
            (fun t' ht' => hf t' ?_) hok
          rw [hpt]
          exact List.mem_cons_of_mem _ (List.mem_cons_of_mem _ ht')
      rw [if_neg h5] at hok
      by_cases h6 : t = "VARIABLE"
      · subst h6
        rw [if_pos rfl] at hok
        cases hnr : next_token r with
        | none =>
          simp only [hnr] at hok
          exact Res.noConfusion hok
        | some nmr2 =>
          obtain ⟨nm, r2⟩ := nmr2
          simp only [hnr] at hok
          have hpt := procTokens_name fuel p "VARIABLE" r nm r2 hnt (by decide)
            (by decide) (by decide) hnr
          refine ih efuel _ vm' r2 (by rw [cstack_mkVariable]; exact hcs)
            (fun t' ht' => hf t' ?_) hok
          rw [hpt]
          exact List.mem_cons_of_mem _ (List.mem_cons_of_mem _ ht')
      rw [if_neg h6] at hok
      by_cases h7 : t = "SEE" ∨ t = "LIST"
      · rw [if_pos h7] at hok
        have hq2 : t ≠ ".\"" := by rcases h7 with h | h <;> simp [h]
        have hmem : t ∈ nameConsumers := by
          rcases h7 with h | h <;> simp [h, nameConsumers]
        cases hnr : next_token r with
        | none =>
          simp only [hnr] at hok
          exact Res.noConfusion hok
        | some nmr2 =>
          obtain ⟨nm, r2⟩ := nmr2
          simp only [hnr] at hok
          cases hfw : find_word vm nm with
          | none =>
            simp only [hfw] at hok
            exact Res.noConfusion hok
          | some w =>
            simp only [hfw] at hok
            have hpt := procTokens_name fuel p t r nm r2 hnt h1 hq2 hmem hnr
            refine ih efuel vm vm' r2 hcs (fun t' ht' => hf t' ?_) hok
            rw [hpt]
            exact List.mem_cons_of_mem _ (List.mem_cons_of_mem _ ht')
      rw [if_neg h7] at hok
      by_cases h8 : t = "LOAD"
      · subst h8
        exact absurd rfl (hf _ (procTokens_head fuel p _ r hnt)).2.2.2
      rw [if_neg h8] at hok
      by_cases h9 : t = "SAVE"
      · subst h9
        rw [if_pos rfl] at hok
        cases hnr : next_token r with
        | none =>
          simp only [hnr] at hok
          exact Res.noConfusion hok
        | some nmr2 =>
          obtain ⟨nm, r2⟩ := nmr2
          simp only [hnr] at hok
          have hpt := procTokens_name fuel p "SAVE" r nm r2 hnt (by decide)
            (by decide) (by decide) hnr
          refine ih efuel _ vm' r2 (by simpa [addOut] using hcs)
            (fun t' ht' => hf t' ?_) hok
          rw [hpt]
          exact List.mem_cons_of_mem _ (List.mem_cons_of_mem _ ht')
      rw [if_neg h9] at hok
      by_cases h10 : t = "SAVEB"
      · subst h10
        rw [if_pos rfl] at hok
        cases hnr : next_token r with
        | none =>
          simp only [hnr] at hok
          exact Res.noConfusion hok
        | some nmr2 =>
          obtain ⟨nm, r2⟩ := nmr2
          simp only [hnr] at hok
          have hpt := procTokens_name fuel p "SAVEB" r nm r2 hnt (by decide)
            (by decide) (by decide) hnr
          refine ih efuel _ vm' r2 (by simpa [addOut] using hcs)
            (fun t' ht' => hf t' ?_) hok
          rw [hpt]
          exact List.mem_cons_of_mem _ (List.mem_cons_of_mem _ ht')
      rw [if_neg h10] at hok
      by_cases h11 : t = "LOADB"
      · subst h11
        rw [if_pos rfl] at hok
        cases hnr : next_token r with
        | none =>
          simp only [hnr] at hok
          exact Res.noConfusion hok
        | some nmr2 =>
          obtain ⟨nm, r2⟩ := nmr2
          simp only [hnr] at hok
          cases hbf : vm.bfs.lookup nm with
          | none =>
            simp only [hbf] at hok
            exact Res.noConfusion hok
          | some f =>
            simp only [hbf] at hok
            cases hla : loadbApply vm f with
            | none =>
              simp only [hla] at hok
              exact Res.noConfusion hok
            | some vm2 =>
              simp only [hla] at hok
              have hpt := procTokens_name fuel p "LOADB" r nm r2 hnt (by decide)
                (by decide) (by decide) hnr
              refine ih efuel _ vm' r2 ?_ (fun t' ht' => hf t' ?_) hok
              · show (addOut vm2 _).cstack = []
                rw [show (addOut vm2 _).cstack = vm2.cstack from rfl,
                  cstack_loadbApply vm vm2 f hla]
                exact hcs
              · rw [hpt]
                exact List.mem_cons_of_mem _ (List.mem_cons_of_mem _ ht')
      rw [if_neg h11] at hok
      by_cases h12 : t = ".\""
      · subst h12
        rw [if_pos rfl] at hok
        cases hdw : (r.dropWhile isSpaceC).dropWhile (fun ch => !(ch == '"')) with
        | nil =>
          simp only [hdw] at hok
          exact Res.noConfusion hok
        | cons c r2 =>
          simp only [hdw] at hok
          have hpt := procTokens_string fuel p r c r2 hnt hdw
          split at hok
          · refine ih efuel _ vm' r2 ?_ (fun t' ht' => hf t' ?_) hok
            · simp [cstack_emit_byte, cstack_emit_cell, cstack_patch_addr,
                cstack_foldl_emit_byte, cstack_emit_addr]
              exact hcs
            · rw [hpt]
              exact List.mem_cons_of_mem _ ht'
          · refine ih efuel _ vm' r2 (by simpa [addOut] using hcs)
              (fun t' ht' => hf t' ?_) hok
            rw [hpt]
            exact List.mem_cons_of_mem _ ht'
      rw [if_neg h12] at hok
      by_cases h13 : t = "IF"
      · subst h13
        exact absurd rfl (hf _ (procTokens_head fuel p _ r hnt)).1
      rw [if_neg h13] at hok
      by_cases h14 : t = "THEN"
      · subst h14
        rw [if_pos rfl] at hok
        rw [if_pos (Or.inr (by rw [hcs]; rfl))] at hok
        exact Res.noConfusion hok
      rw [if_neg h14] at hok
      by_cases h15 : t = "ELSE"
      · subst h15
        rw [if_pos rfl] at hok
        rw [if_pos (Or.inr (by rw [hcs]; rfl))] at hok
        exact Res.noConfusion hok
      rw [if_neg h15] at hok
      by_cases h16 : t = "DO"
      · subst h16
        exact absurd rfl (hf _ (procTokens_head fuel p _ r hnt)).2.1
      rw [if_neg h16] at hok
      by_cases h17 : t = "LOOP"
      · subst h17
        rw [if_pos rfl] at hok
        rw [if_pos (Or.inr (by rw [hcs]; rfl))] at hok
        exact Res.noConfusion hok
      rw [if_neg h17] at hok
      by_cases h18 : t = "BEGIN"
      · subst h18
        exact absurd rfl (hf _ (procTokens_head fuel p _ r hnt)).2.2.1
      rw [if_neg h18] at hok
      by_cases h19 : t = "WHILE"
      · subst h19
        rw [if_pos rfl] at hok
        rw [if_pos (Or.inr (by rw [hcs]; rfl))] at hok
        exact Res.noConfusion hok
      rw [if_neg h19] at hok
      by_cases h20 : t = "REPEAT"
      · subst h20
        rw [if_pos rfl] at hok
        rw [if_pos (Or.inr (by rw [hcs]; simp))] at hok
        exact Res.noConfusion hok
      rw [if_neg h20] at hok
      obtain ⟨h7a, h7b⟩ := not_or.mp h7
      have hnc : t ∉ nameConsumers := by
        simp only [nameConsumers, List.mem_cons, List.not_mem_nil, or_false]
        push_neg
        exact ⟨h2, h5, h6, h7a, h7b, h8, h9, h10, h11⟩
      have hpt := procTokens_plain fuel p t r hnt h1 h12 hnc
      rcases hit : interpret_token efuel vm t with ⟨vm2, b⟩
      rw [hit] at hok
      cases b with
      | false => exact Res.noConfusion hok
      | true =>
        refine ih efuel vm2 vm' r ?_ (fun t' ht' => hf t' ?_) hok
        · rw [show vm2 = (interpret_token efuel vm t).1 from by rw [hit],
            cstack_interpret_token]
          exact hcs
        · rw [hpt]
          exact List.mem_cons_of_mem _ ht'

/-- Claim C3 — as stated the claim is false on the code: the `;` handler
ends compilation without checking the control stack, so the single line
`: F IF ;` *succeeds*, ends with compiling = false, and leaves one
unmatched entry (the IF patch site) on the compile-time control stack. -/
theorem claim_C3_counterexample :
    (interpret_line emptyVm (": F IF ;".toList)).isOk = true ∧
      (interpret_line emptyVm (": F IF ;".toList)).vmOf.compiling = false ∧
      (interpret_line emptyVm (": F IF ;".toList)).vmOf.cstack.length = 1 := by
  decide

theorem claim_C3_witness :
    ((interpLoop 4 1000 init_forth ("1 2 +".toList)).vmOf).cstack = [] := by
  have hisok : (interpLoop 4 1000 init_forth ("1 2 +".toList)).isOk = true := by decide
  cases h : interpLoop 4 1000 init_forth ("1 2 +".toList) with
  | ok v =>
    show v.cstack = []
    exact claim_C3_cstack_empty 4 1000 init_forth v ("1 2 +".toList) init_forth_cstack
      (by decide) h
  | err v =>
    rw [h] at hisok
    exact Bool.noConfusion hisok
  | exited v =>
    rw [h] at hisok
    exact Bool.noConfusion hisok

/-! ### Backslash-comment handling (claim C8) -/

theorem strchrIdx_append (c : Char) (s1 s2 : List Char) (h : c ∉ s1) :
    strchrIdx c (s1 ++ c :: s2) = some s1.length := by
  induction s1 with
  | nil => simp [strchrIdx]
  | cons x xs ih =>
    have hx : ¬(x = c) := fun he => h (he ▸ List.mem_cons_self x xs)
    have ih2 := ih (fun hm => h (List.mem_cons_of_mem _ hm))
    simp [strchrIdx, if_neg hx, ih2]

theorem getD_append_getLast (s1 rest : List Char) (d : Char) (h : s1 ≠ []) :
    (s1 ++ rest).getD (s1.length - 1) d = (s1.getLast?).getD d := by
  have hlt : s1.length - 1 < s1.length := by
    have := List.length_pos.mpr h
    omega
  rw [List.getD_eq_getElem?_getD, List.getElem?_append_left hlt, List.getLast?_eq_getElem?]

theorem stripComment_comment (s1 s2 : List Char) (h1 : '\\' ∉ s1)
    (h2 : s1 = [] ∨ isSpaceC ((s1.getLast?).getD 'A'))
    (h3 : s1.length ≤ 255) :
    stripComment (s1 ++ '\\' :: s2) = s1 := by
  unfold stripComment
  simp only [strchrIdx_append _ _ _ h1]
  by_cases hnil : s1 = []
  · subst hnil
    simp
  · have h2' : isSpaceC ((s1.getLast?).getD 'A') = true := by
      rcases h2 with h2 | h2
      · exact absurd h2 hnil
      · exact h2
    rw [if_pos (Or.inr (by rw [getD_append_getLast _ _ _ hnil]; exact h2'))]
    rw [Nat.min_eq_left h3, List.take_left]

theorem stripComment_noComment (s1 s2 : List Char) (h1 : '\\' ∉ s1)
    (hnil : s1 ≠ []) (h2 : ¬ isSpaceC ((s1.getLast?).getD 'A')) :
    stripComment (s1 ++ '\\' :: s2) = s1 ++ '\\' :: s2 := by
  unfold stripComment
  simp only [strchrIdx_append _ _ _ h1]
  rw [if_neg]
  push_neg
  refine ⟨fun hz => hnil (List.length_eq_zero.mp hz), ?_⟩
  rw [getD_append_getLast _ _ _ hnil]
  simpa using h2

/-- Claim C8 (amended) — only the *first* backslash of the line is
examined.  (i) When the first backslash is at the start of the line or
preceded by whitespace, exactly the prefix of the line before it
(truncated to the 255-byte copy buffer) is handed to the token loop.
(ii) When the first backslash is embedded in a token (not preceded by
whitespace), no comment starts anywhere: the *whole* line is handed to
the token loop, even if a later backslash is preceded by whitespace —
this is where the claim as stated fails (see the counterexample). -/
theorem claim_C8_backslash :
    (∀ (vm : forth_t) (s1 s2 : List Char), '\\' ∉ s1 →
        (s1 = [] ∨ isSpaceC ((s1.getLast?).getD 'A')) → s1.length ≤ 255 →
        interpret_line vm (s1 ++ '\\' :: s2)
          = interpLoop ((s1 ++ '\\' :: s2).length + 1) 1000 vm s1) ∧
      (∀ (vm : forth_t) (s1 s2 : List Char), '\\' ∉ s1 → s1 ≠ [] →
        ¬ isSpaceC ((s1.getLast?).getD 'A') →
        interpret_line vm (s1 ++ '\\' :: s2)
          = interpLoop ((s1 ++ '\\' :: s2).length + 1) 1000 vm (s1 ++ '\\' :: s2)) := by
  constructor
  · intro vm s1 s2 h1 h2 h3
    unfold interpret_line
    rw [stripComment_comment s1 s2 h1 h2 h3]
  · intro vm s1 s2 h1 hnil h2
    unfold interpret_line
    rw [stripComment_noComment s1 s2 h1 hnil h2]

theorem claim_C8_witness :
    interpret_line emptyVm ("1 2 ".toList ++ '\\' :: " X".toList)
        = interpLoop (("1 2 ".toList ++ '\\' :: " X".toList).length + 1) 1000 emptyVm
            ("1 2 ".toList) ∧
      interpret_line emptyVm ("A".toList ++ '\\' :: "B".toList)
        = interpLoop (("A".toList ++ '\\' :: "B".toList).length + 1) 1000 emptyVm
            ("A".toList ++ '\\' :: "B".toList) :=
  ⟨claim_C8_backslash.1 emptyVm _ _ (by decide) (by decide) (by decide),
   claim_C8_backslash.2 emptyVm _ _ (by decide) (by decide) (by decide)⟩

/-- Claim C8 — as stated the claim is false: it promises that *any*
backslash preceded by whitespace starts a comment, with exactly the
prefix before it handed to the token stream.  But the code inspects only
the first backslash of the line (`strchr`).  After defining a word named
`A\B`, the line `A\B \ QQQ` contains a whitespace-preceded backslash
(before `QQQ`), yet its first backslash is embedded in `A\B`, so no
comment is recognised: the loop reaches the lone `\` token and fails,
while interpreting the promised prefix `A\B ` succeeds and leaves 5 on
the stack. -/
theorem claim_C8_counterexample :
    (interpret_line ((interpret_line emptyVm (": A\\B 5 ;".toList)).vmOf)
        ("A\\B \\ QQQ".toList)).isOk = false ∧
      (interpret_line ((interpret_line emptyVm (": A\\B 5 ;".toList)).vmOf)
        ("A\\B ".toList)).isOk = true ∧
      (interpret_line ((interpret_line emptyVm (": A\\B 5 ;".toList)).vmOf)
        ("A\\B ".toList)).vmOf.ds = [5] := by
  decide

end ForthFast
